import Mathlib

/-!
# Verification of the `frugalmoniker` Namecheap API client

A shallow embedding of `frugalmoniker.py` (a NameCheap.com API client) and
proofs about its data-shaping behaviour: contact-field validation, phone
format validation, field-name camelization for the wire format, parameter
map assembly and merging, and response-to-object mapping.

Modelling conventions:
* Python dictionaries become association lists `List (String × _)`;
  `d[k] = v` is `dictSet` (update-in-place-or-append, matching dict
  insertion-order semantics), `d.update(other)` is `dictUpdate`, and
  `d.get(k)` / `d[k]` read through `alookup` (first match).
* Python exceptions become `Except PyErr`.
* The HTTP transport (`requests.post`) and the XML parser (`xmltodict`)
  are external collaborators: a request-issuing method takes a
  `send : HttpPost → Response` oracle, returns the `HttpPost` it issued
  (making the wire parameters observable), and reads the parsed document
  from the `Response`.
* Machine-level details that the library delegates to the Python standard
  library (`datetime.strptime`, `int(...)`, `str.title`, `re`) are
  re-implemented here over `List Char` so every definition is executable
  by the kernel.
-/

set_option maxHeartbeats 1000000

namespace Frugalmoniker

/-- Python exceptions that the embedded code can raise. `contactValidationError`
is the library's own `ContactValidationError`; the others are builtins. -/
inductive PyErr where
  | keyError (key : String)
  | contactValidationError (msg : String)
  | valueError (msg : String)
  | typeError (msg : String)
  | apiError (errors : List String)
deriving DecidableEq, Repr

instance {ε α : Type} [DecidableEq ε] [DecidableEq α] : DecidableEq (Except ε α) :=
  fun x y =>
    match x, y with
    | .error a, .error b =>
      if h : a = b then .isTrue (by rw [h]) else .isFalse (fun hh => h (by injection hh))
    | .error _, .ok _ => .isFalse (fun hh => Except.noConfusion hh)
    | .ok _, .error _ => .isFalse (fun hh => Except.noConfusion hh)
    | .ok a, .ok b =>
      if h : a = b then .isTrue (by rw [h]) else .isFalse (fun hh => h (by injection hh))

/-- A value stored in a request parameter dictionary: the source mixes
strings and integers (`Years`, `Page`, `PageSize`). -/
inductive Val where
  | s (string : String)
  | n (int : Int)
deriving DecidableEq, Repr

/-- First-match association-list lookup: Python `d.get(k)`. -/
def alookup {α : Type} : List (String × α) → String → Option α
  | [], _ => none
  | (k', v) :: rest, k => if k' = k then some v else alookup rest k

/-- Python `d[k] = v`: replace the value in place if the key is present
(dicts keep the original insertion position), otherwise append. -/
def dictSet {α : Type} (d : List (String × α)) (k : String) (v : α) : List (String × α) :=
  if k ∈ d.map Prod.fst then
    d.map (fun kv => if kv.1 = k then (k, v) else kv)
  else
    d ++ [(k, v)]

/-- Python `d.update(upd)`: set every key of `upd`, in order. -/
def dictUpdate {α : Type} (d upd : List (String × α)) : List (String × α) :=
  upd.foldl (fun acc kv => dictSet acc kv.1 kv.2) d

/-- The parsed body of an API response (`xmltodict.parse(response.text)`),
restricted to the paths the client reads: `ApiResponse.Errors` (truthy iff
non-empty) and `ApiResponse.CommandResponse.DomainGetListResult.Domain`,
the latter a list of attribute dictionaries. -/
structure ApiDoc where
  errors : List String
  domainGetListResult : List (List (String × String))
deriving DecidableEq, Repr

/-- A `requests` response, reduced to its parsed document. -/
structure Response where
  doc : ApiDoc
deriving DecidableEq, Repr

/-- An HTTP POST as issued by `requests.post(url, data=opts)`. -/
structure HttpPost where
  url : String
  data : List (String × Val)
deriving DecidableEq, Repr

/-- The `NamecheapClient` object state: the credential dictionary built by
`__init__` and the endpoint URL. -/
structure NamecheapClient where
  base_opts : List (String × Val)
  base_url : String
deriving DecidableEq, Repr

/-- `NamecheapClient.__init__`. The `icanhazip.com` fallback for a missing
`client_ip` is an external HTTP call, so the resolved IP is taken as the
argument; `username` falls back to `api_user` when absent or falsy. -/
def NamecheapClient.init (api_user api_key : String) (username : Option String)
    (client_ip : String) (environment : String) : NamecheapClient :=
  let username := match username with
    | some u => if u = "" then api_user else u
    | none => api_user
  { base_opts := [("ApiUser", Val.s api_user), ("ApiKey", Val.s api_key),
                  ("UserName", Val.s username), ("ClientIp", Val.s client_ip)],
    base_url := environment }

/-- `NamecheapClient.request`: copy `base_opts`, overlay the per-call
keyword arguments, POST to `base_url`. Returns the issued post, the
transport's response, and the (unchanged) client state. -/
def NamecheapClient.request (c : NamecheapClient) (send : HttpPost → Response)
    (kwargs : List (String × Val)) : HttpPost × Response × NamecheapClient :=
  let opts := c.base_opts
  let opts := dictUpdate opts kwargs
  let post : HttpPost := { url := c.base_url, data := opts }
  (post, send post, c)

/-! ## The `Contact` record -/

/-- Python `str.title()` (ASCII): uppercase a cased character that follows a
non-cased character, lowercase a cased character that follows a cased one. -/
def titleAux : List Char → Bool → List Char
  | [], _ => []
  | c :: rest, prevCased =>
    if c.isAlpha then
      (if prevCased then c.toLower else c.toUpper) :: titleAux rest true
    else c :: titleAux rest false

/-- Python `str.title()`. -/
def pythonTitle (s : String) : String := String.mk (titleAux s.data false)

/-- `re.sub(r'[A-Za-z0-9]_[A-Za-z0-9]', lambda m: m.group()[0] + m.group()[2].upper(), _)`:
scan left to right for non-overlapping matches, replacing `x_y` by `xY`. -/
def camelSubAux : List Char → List Char
  | a :: '_' :: b :: rest =>
    if a.isAlphanum && b.isAlphanum then a :: b.toUpper :: camelSubAux rest
    else a :: camelSubAux ('_' :: b :: rest)
  | c :: rest => c :: camelSubAux rest
  | [] => []

/-- The `Contact` object: `_prefix` plus the fifteen data attributes set by
`__init__`. Optional attributes (set with `kwargs.get`) are `Option String`
(`none` = Python `None`); required ones are `String`. -/
structure Contact where
  _prefix : String
  organization_name : Option String
  job_title : Option String
  first_name : String
  last_name : String
  address1 : String
  address2 : Option String
  city : String
  state_province : String
  state_province_choice : Option String
  postal_code : String
  country : String
  phone : String
  phone_ext : Option String
  fax : Option String
  email_address : String
deriving DecidableEq, Repr

/-- `Contact.__required_fields`, in source order. -/
def Contact.required_fields : List String :=
  ["first_name", "last_name", "address1", "city", "state_province",
   "country", "postal_code", "phone", "email_address"]

/-- `Contact._validate_phone_number`: `re.compile('\+\d{3}\.\d{7}').match(number)`.
`re.match` anchors at the start only, so this accepts any string that
BEGINS WITH `+`, three digits, a dot and seven digits, regardless of what
follows. -/
def Contact._validate_phone_number (number : String) : Bool :=
  match number.data with
  | '+' :: a :: b :: c :: '.' :: d :: e :: f :: g :: h :: i :: j :: _ =>
    a.isDigit && b.isDigit && c.isDigit && d.isDigit && e.isDigit &&
      f.isDigit && g.isDigit && h.isDigit && i.isDigit && j.isDigit
  | _ => false

/-- `Contact._camelize`. -/
def Contact._camelize (string : String) : String :=
  String.mk (camelSubAux (pythonTitle string).data)

/-- `Contact.validate`: each required field must be truthy (non-empty), in
`__required_fields` order; then the phone must match the phone pattern; then
a truthy fax must match it too. -/
def Contact.validate (c : Contact) : Except PyErr Unit :=
  if c.first_name = "" then .error (.contactValidationError "first_name is required")
  else if c.last_name = "" then .error (.contactValidationError "last_name is required")
  else if c.address1 = "" then .error (.contactValidationError "address1 is required")
  else if c.city = "" then .error (.contactValidationError "city is required")
  else if c.state_province = "" then .error (.contactValidationError "state_province is required")
  else if c.country = "" then .error (.contactValidationError "country is required")
  else if c.postal_code = "" then .error (.contactValidationError "postal_code is required")
  else if c.phone = "" then .error (.contactValidationError "phone is required")
  else if c.email_address = "" then .error (.contactValidationError "email_address is required")
  else if !Contact._validate_phone_number c.phone then
    .error (.contactValidationError "phone is not in valid format")
  else match c.fax with
    | some fx =>
      if fx ≠ "" && !Contact._validate_phone_number fx then
        .error (.contactValidationError "fax is not in valid format")
      else .ok ()
    | none => .ok ()

/-- The keyword arguments of `Contact.__init__`: each key either bound to a
string or absent. -/
structure ContactKwargs where
  organization_name : Option String
  job_title : Option String
  first_name : Option String
  last_name : Option String
  address1 : Option String
  address2 : Option String
  city : Option String
  state_province : Option String
  state_province_choice : Option String
  postal_code : Option String
  country : Option String
  phone : Option String
  phone_ext : Option String
  fax : Option String
  email : Option String
  email_address : Option String
deriving DecidableEq, Repr

/-- Python `kwargs[name]`: `KeyError` when the key is absent. -/
def reqItem (v : Option String) (name : String) : Except PyErr String :=
  match v with
  | some s => .ok s
  | none => .error (.keyError name)

/-- `Contact.__init__`: required attributes are read with `kwargs[...]`
(raising `KeyError` when absent, in source order), optional ones with
`kwargs.get(...)`; `email_address` is `kwargs.get('email') or
kwargs['email_address']`; finally `self.validate()` runs. -/
def Contact.init (pfx : String) (kw : ContactKwargs) : Except PyErr Contact := do
  let first_name ← reqItem kw.first_name "first_name"
  let last_name ← reqItem kw.last_name "last_name"
  let address1 ← reqItem kw.address1 "address1"
  let city ← reqItem kw.city "city"
  let state_province ← reqItem kw.state_province "state_province"
  let postal_code ← reqItem kw.postal_code "postal_code"
  let country ← reqItem kw.country "country"
  let phone ← reqItem kw.phone "phone"
  let email_address ←
    match kw.email with
    | some e => if e = "" then reqItem kw.email_address "email_address" else pure e
    | none => reqItem kw.email_address "email_address"
  let c : Contact :=
    { _prefix := pfx,
      organization_name := kw.organization_name,
      job_title := kw.job_title,
      first_name := first_name,
      last_name := last_name,
      address1 := address1,
      address2 := kw.address2,
      city := city,
      state_province := state_province,
      state_province_choice := kw.state_province_choice,
      postal_code := postal_code,
      country := country,
      phone := phone,
      phone_ext := kw.phone_ext,
      fax := kw.fax,
      email_address := email_address }
  let _ ← c.validate
  pure c

/-- The effective value `Contact.__init__` reads for a required field:
the homonymous keyword, except that `email_address` is satisfied by a
truthy `email` keyword first. -/
def effectiveRequired (kw : ContactKwargs) (f : String) : Option String :=
  if f = "first_name" then kw.first_name
  else if f = "last_name" then kw.last_name
  else if f = "address1" then kw.address1
  else if f = "city" then kw.city
  else if f = "state_province" then kw.state_province
  else if f = "country" then kw.country
  else if f = "postal_code" then kw.postal_code
  else if f = "phone" then kw.phone
  else if f = "email_address" then
    match kw.email with
    | some e => if e = "" then kw.email_address else some e
    | none => kw.email_address
  else none

/-- The data attributes of a `Contact` in the order `dir(self)` yields them
(alphabetical), paired with their values; `None`-valued optional attributes
are `none`. Underscored attributes (`_prefix`, `_Contact__required_fields`)
and callables (the methods) are the ones `as_dict` skips, so they do not
appear. -/
def Contact.attrs (c : Contact) : List (String × Option String) :=
  [("address1", some c.address1),
   ("address2", c.address2),
   ("city", some c.city),
   ("country", some c.country),
   ("email_address", some c.email_address),
   ("fax", c.fax),
   ("first_name", some c.first_name),
   ("job_title", c.job_title),
   ("last_name", some c.last_name),
   ("organization_name", c.organization_name),
   ("phone", some c.phone),
   ("phone_ext", c.phone_ext),
   ("postal_code", some c.postal_code),
   ("state_province", some c.state_province),
   ("state_province_choice", c.state_province_choice)]

/-- The body of the `as_dict` loop: skip a `None` value, otherwise set
`ret[key(attr)] = value`. -/
def asDictFold (key : String → String) (ret : List (String × String))
    (kv : String × Option String) : List (String × String) :=
  match kv.2 with
  | none => ret
  | some v => dictSet ret (key kv.1) v

/-- `Contact.as_dict`: for each non-underscore, non-callable, non-`None`
attribute, set `ret[self._prefix + self._camelize(attr)] = value`. -/
def Contact.as_dict (c : Contact) : List (String × String) :=
  (Contact.attrs c).foldl
    (asDictFold (fun attr => Contact._prefix c ++ Contact._camelize attr)) []

/-- Prefix every named optional entry that is present. -/
def prefixedEntries (p : String) (l : List (String × Option String)) :
    List (String × String) :=
  l.filterMap (fun e => e.2.map (fun v => (p ++ e.1, v)))

/-- Specification-side counterpart of `Contact.attrs`: the same attribute
values, but keyed by the literal CamelCase form of each snake_case name, as
the spec describes the wire field names. -/
def Contact.camelNameEntries (c : Contact) : List (String × Option String) :=
  [("Address1", some c.address1),
   ("Address2", c.address2),
   ("City", some c.city),
   ("Country", some c.country),
   ("EmailAddress", some c.email_address),
   ("Fax", c.fax),
   ("FirstName", some c.first_name),
   ("JobTitle", c.job_title),
   ("LastName", some c.last_name),
   ("OrganizationName", c.organization_name),
   ("Phone", some c.phone),
   ("PhoneExt", c.phone_ext),
   ("PostalCode", some c.postal_code),
   ("StateProvince", some c.state_province),
   ("StateProvinceChoice", c.state_province_choice)]

/-- Specification-side description of `as_dict`: every present field under
`prefix ++ CamelCaseName`. -/
def Contact.camelizedDict (c : Contact) : List (String × String) :=
  prefixedEntries (Contact._prefix c) (Contact.camelNameEntries c)

/-- Specification-side checker for the phone format the spec describes:
exactly `+`, three digits, a dot and seven digits, with nothing after
them. -/
def phoneFormatExact (s : String) : Bool :=
  match s.data with
  | ['+', a, b, c, '.', d, e, f, g, h, i, j] =>
    a.isDigit && b.isDigit && c.isDigit && d.isDigit && e.isDigit &&
      f.isDigit && g.isDigit && h.isDigit && i.isDigit && j.isDigit
  | _ => false

/-- The CamelCase wire names of the fifteen contact attributes, in `dir`
order. -/
def camelNames : List String :=
  ["Address1", "Address2", "City", "Country", "EmailAddress", "Fax",
   "FirstName", "JobTitle", "LastName", "OrganizationName", "Phone",
   "PhoneExt", "PostalCode", "StateProvince", "StateProvinceChoice"]

/-! ## The `Domain` record -/

/-- A `datetime.date`. -/
structure PyDate where
  year : Nat
  month : Nat
  day : Nat
deriving DecidableEq, Repr

def isLeapYear (y : Nat) : Bool :=
  y % 4 == 0 && (y % 100 != 0 || y % 400 == 0)

def daysInMonth (y m : Nat) : Nat :=
  if m == 2 then (if isLeapYear y then 29 else 28)
  else if m == 4 || m == 6 || m == 9 || m == 11 then 30
  else 31

/-- Split a character list at `/`. -/
def splitSlash : List Char → List Char → List (List Char)
  | [], acc => [acc.reverse]
  | c :: rest, acc =>
    if c = '/' then acc.reverse :: splitSlash rest [] else splitSlash rest (c :: acc)

def natOfDigits (l : List Char) : Nat :=
  l.foldl (fun a c => 10 * a + (c.toNat - 48)) 0

/-- `datetime.strptime(s, '%m/%d/%Y').date()`: month and day of one or two
digits, year of up to four digits, all in calendar range; anything else
raises (`none`). -/
def strptimeMDY (s : String) : Option PyDate :=
  match splitSlash s.data [] with
  | [ms, ds, ys] =>
    if ms ≠ [] ∧ ms.length ≤ 2 ∧ ms.all Char.isDigit ∧
       ds ≠ [] ∧ ds.length ≤ 2 ∧ ds.all Char.isDigit ∧
       ys ≠ [] ∧ ys.length ≤ 4 ∧ ys.all Char.isDigit then
      let m := natOfDigits ms
      let d := natOfDigits ds
      let y := natOfDigits ys
      if 1 ≤ m ∧ m ≤ 12 ∧ 1 ≤ d ∧ d ≤ daysInMonth y m ∧ 1 ≤ y then
        some { year := y, month := m, day := d }
      else none
    else none
  | _ => none

/-- Python `int(s)` on a string: optional surrounding whitespace, optional
sign, at least one digit. -/
def pyInt (s : String) : Option Int :=
  let t := ((s.data.dropWhile Char.isWhitespace).reverse.dropWhile Char.isWhitespace).reverse
  match t with
  | '-' :: ds =>
    if ds ≠ [] ∧ ds.all Char.isDigit then some (-(natOfDigits ds : Int)) else none
  | '+' :: ds =>
    if ds ≠ [] ∧ ds.all Char.isDigit then some ((natOfDigits ds : Int)) else none
  | ds =>
    if ds ≠ [] ∧ ds.all Char.isDigit then some ((natOfDigits ds : Int)) else none

/-- The `Domain` object: one entry of a domain list response. -/
structure Domain where
  client : NamecheapClient
  _original_dict : List (String × String)
  auto_renew : Option String
  created : PyDate
  expires : PyDate
  id : Int
  is_expired : Bool
  is_locked : Bool
  name : Option String
  user : Option String
  whois_guard : Option String
deriving DecidableEq, Repr

/-- `Domain.__init__`: stores the client and the raw dictionary, then reads
each field with `kwargs.get(...)`; `Created`/`Expires` go through
`strptime('%m/%d/%Y')`, `ID` through `int(...)` (both raise on a missing or
malformed value), `IsExpired`/`IsLocked` compare against the string
`'true'`, and the rest are stored raw. -/
def Domain.init (client : NamecheapClient) (kwargs : List (String × String)) :
    Except PyErr Domain := do
  let auto_renew := alookup kwargs "AutoRenew"
  let created ←
    match alookup kwargs "Created" with
    | none => Except.error (.typeError "strptime() argument 1 must be str, not None")
    | some s =>
      match strptimeMDY s with
      | none => Except.error (.valueError "time data does not match format '%m/%d/%Y'")
      | some d => Except.ok d
  let expires ←
    match alookup kwargs "Expires" with
    | none => Except.error (.typeError "strptime() argument 1 must be str, not None")
    | some s =>
      match strptimeMDY s with
      | none => Except.error (.valueError "time data does not match format '%m/%d/%Y'")
      | some d => Except.ok d
  let id ←
    match alookup kwargs "ID" with
    | none => Except.error (.typeError "int() argument must be a string, not None")
    | some s =>
      match pyInt s with
      | none => Except.error (.valueError "invalid literal for int()")
      | some n => Except.ok n
  Except.ok
    { client := client,
      _original_dict := kwargs,
      auto_renew := auto_renew,
      created := created,
      expires := expires,
      id := id,
      is_expired := alookup kwargs "IsExpired" == some "true",
      is_locked := alookup kwargs "IsLocked" == some "true",
      name := alookup kwargs "Name",
      user := alookup kwargs "User",
      whois_guard := alookup kwargs "WhoisGuard" }

/-! ## The client methods -/

/-- Python `k[1:]`. -/
def dropFirst (s : String) : String := String.mk (s.data.drop 1)

/-- Python `s.upper()` (ASCII). -/
def upperStr (s : String) : String := String.mk (s.data.map Char.toUpper)

/-- Python `','.join(l)`. -/
def joinComma : List String → String
  | [] => ""
  | [x] => x
  | x :: rest => x ++ "," ++ joinComma rest

def LIST_TYPES : List (String × String) :=
  [("all", "ALL"), ("expiring", "EXPIRING"), ("expired", "EXPIRED")]

def SORT_TYPES : List (String × String) :=
  [("name", "NAME"), ("-name", "NAME_DESC"),
   ("expire_date", "EXPIREDATE"), ("-expire_date", "EXPIREDATE_DESC"),
   ("create_date", "CREATEDATE"), ("-create_date", "CREATEDATE_DESC")]

/-- The parameter dictionary `common_get_list` assembles once `list_type`
and `sort_by` have been translated: the five fixed keys, plus `SearchTerm`
when `search_term` is truthy. -/
def commonGetListOpts (command ltv sbv : String) (page_size page : Int)
    (search_term : Option String) : List (String × Val) :=
  let get_opts := [("Command", Val.s command), ("ListType", Val.s ltv),
                   ("SortBy", Val.s sbv), ("Page", Val.n page),
                   ("PageSize", Val.n page_size)]
  match search_term with
  | some t => if t = "" then get_opts else dictSet get_opts "SearchTerm" (Val.s t)
  | none => get_opts

/-- `NamecheapClient.common_get_list`: translate `list_type` and `sort_by`
through the two tables (raising `ValueError` on an unknown key), build the
parameter dictionary, add `SearchTerm` only when `search_term` is truthy,
and issue the request. -/
def NamecheapClient.common_get_list (c : NamecheapClient) (send : HttpPost → Response)
    (command : String) (list_type : String) (sort_by : String)
    (page_size : Int) (page : Int) (search_term : Option String) :
    Except PyErr (HttpPost × Response × NamecheapClient) := do
  let list_type ←
    match alookup LIST_TYPES list_type with
    | some v => Except.ok v
    | none => Except.error (.valueError "Invalid list_type.")
  let sort_by ←
    match alookup SORT_TYPES sort_by with
    | some v => Except.ok v
    | none => Except.error (.valueError "Invalid sort_by")
  Except.ok (NamecheapClient.request c send
    (commonGetListOpts command list_type sort_by page_size page search_term))

/-- `NamecheapClient.domains_get_list`: delegate to `common_get_list` with
command `namecheap.domains.getList` (defaults `list_type='all'`,
`sort_by='name'`, `page_size=10`, `page=1`, `search_term=None` pass through
it), raise on a truthy `Errors` field, then build one `Domain` per element
of `DomainGetListResult.Domain`, stripping the first character of every
key. -/
def NamecheapClient.domains_get_list (c : NamecheapClient) (send : HttpPost → Response)
    (list_type : String) (sort_by : String) (page_size : Int) (page : Int)
    (search_term : Option String) : Except PyErr (List Domain) := do
  let trip ← NamecheapClient.common_get_list c send "namecheap.domains.getList"
    list_type sort_by page_size page search_term
  let doc := trip.2.1.doc
  if doc.errors ≠ [] then Except.error (.apiError doc.errors)
  else
    doc.domainGetListResult.mapM
      (fun domain => Domain.init c (domain.map (fun kv => (dropFirst kv.1, kv.2))))

/-- The parameter dictionary `domains_dns_set_custom` assembles. -/
def dnsSetCustomOpts (sld tld : String) (nameservers : List String) :
    List (String × Val) :=
  [("Command", Val.s "namecheap.domains.dns.setCustom"),
   ("SLD", Val.s sld), ("TLD", Val.s tld),
   ("Nameservers", Val.s (joinComma (nameservers.map upperStr)))]

/-- `NamecheapClient.domains_dns_set_custom`: join the uppercased
nameservers with commas, issue the request, raise on a truthy `Errors`
field, otherwise return the response. -/
def NamecheapClient.domains_dns_set_custom (c : NamecheapClient)
    (send : HttpPost → Response) (sld tld : String) (nameservers : List String) :
    Except PyErr (HttpPost × Response × NamecheapClient) :=
  let trip := NamecheapClient.request c send (dnsSetCustomOpts sld tld nameservers)
  if trip.2.1.doc.errors ≠ [] then Except.error (.apiError trip.2.1.doc.errors)
  else Except.ok trip

/-- `NamecheapClient.ssl_get_list`: delegates to `common_get_list` with
command `namecheap.ssl.getList` and returns its response directly. The
source lines after its `return` statement (the error check and result
parsing) are unreachable, so they contribute nothing here. -/
def NamecheapClient.ssl_get_list (c : NamecheapClient) (send : HttpPost → Response)
    (list_type : String) (sort_by : String) (page_size : Int) (page : Int)
    (search_term : Option String) :
    Except PyErr (HttpPost × Response × NamecheapClient) := do
  let response ← NamecheapClient.common_get_list c send "namecheap.ssl.getList"
    list_type sort_by page_size page search_term
  return response

/-- A contact dictionary as merged into a `Val`-valued parameter
dictionary. -/
def asValDict (c : Contact) : List (String × Val) :=
  (Contact.as_dict c).map (fun kv => (kv.1, Val.s kv.2))

/-- The parameter dictionary `domains_create` assembles from the resolved
contacts: `Command`/`DomainName`/`Years` updated in turn with the
registrant, admin, tech and aux-billing dictionaries. -/
def domainsCreateOpts (domain_name : String) (years : Int)
    (registrant admin tech aux_billing : Contact) : List (String × Val) :=
  let get_opts := [("Command", Val.s "namecheap.domains.create"),
                   ("DomainName", Val.s domain_name), ("Years", Val.n years)]
  let get_opts := dictUpdate get_opts (asValDict registrant)
  let get_opts := dictUpdate get_opts (asValDict admin)
  let get_opts := dictUpdate get_opts (asValDict tech)
  dictUpdate get_opts (asValDict aux_billing)

/-- `NamecheapClient.domains_create`: set the registrant's `_prefix` to
`'Registrant'` (an in-place mutation of the caller's object, returned as
the second component), default each missing contact to a copy of the
registrant re-prefixed `'Admin'`/`'Tech'`/`'AuxBilling'`, then merge
`Command`/`DomainName`/`Years` (default 1) with the four contact
dictionaries and issue the request. -/
def NamecheapClient.domains_create (c : NamecheapClient) (send : HttpPost → Response)
    (domain_name : String) (years : Option Int) (registrant : Contact)
    (admin tech aux_billing : Option Contact) :
    (HttpPost × Response × NamecheapClient) × Contact :=
  let years := years.getD 1
  let registrant := { registrant with _prefix := "Registrant" }
  let admin := match admin with
    | some a => a
    | none => { registrant with _prefix := "Admin" }
  let tech := match tech with
    | some t => t
    | none => { registrant with _prefix := "Tech" }
  let aux_billing := match aux_billing with
    | some x => x
    | none => { registrant with _prefix := "AuxBilling" }
  (NamecheapClient.request c send
    (domainsCreateOpts domain_name years registrant admin tech aux_billing), registrant)

/-! ## Concrete fixtures used to evaluate the definitions -/

/-- A client as built by `NamecheapClient.__init__`. -/
def witClient : NamecheapClient :=
  NamecheapClient.init "apiuser" "apikey" none "203.0.113.7"
    "https://api.namecheap.com/xml.response"

/-- A parsed response document whose `Errors` field is truthy. -/
def errDoc : ApiDoc :=
  { errors := ["2030280 - TLD is not supported"], domainGetListResult := [] }

/-- One `Domain` element of a `DomainGetListResult`, as `xmltodict` renders
its XML attributes (`@`-prefixed keys). -/
def domEntry : List (String × String) :=
  [("@ID", "57579"), ("@Name", "example.com"), ("@User", "owner"),
   ("@Created", "11/04/2011"), ("@Expires", "11/04/2012"),
   ("@IsExpired", "false"), ("@IsLocked", "true"), ("@AutoRenew", "false"),
   ("@WhoisGuard", "ENABLED")]

/-- A parsed response document with no errors and one domain. -/
def okDoc : ApiDoc :=
  { errors := [], domainGetListResult := [domEntry] }

/-- A transport that always answers with an error document. -/
def sendErr : HttpPost → Response := fun _ => { doc := errDoc }

/-- A transport that always answers with the error-free document. -/
def sendOk : HttpPost → Response := fun _ => { doc := okDoc }

/-- The request `ssl_get_list` issues with default list arguments. -/
def witTripSsl : HttpPost × Response × NamecheapClient :=
  NamecheapClient.request witClient sendErr
    [("Command", Val.s "namecheap.ssl.getList"), ("ListType", Val.s "ALL"),
     ("SortBy", Val.s "NAME"), ("Page", Val.n 1), ("PageSize", Val.n 10)]

/-- The request `domains_get_list` issues with default list arguments,
against the erroring transport. -/
def witTripDglErr : HttpPost × Response × NamecheapClient :=
  NamecheapClient.request witClient sendErr
    (commonGetListOpts "namecheap.domains.getList" "ALL" "NAME" 10 1 none)

/-- The request `domains_get_list` issues with default list arguments,
against the error-free transport. -/
def witTripDglOk : HttpPost × Response × NamecheapClient :=
  NamecheapClient.request witClient sendOk
    (commonGetListOpts "namecheap.domains.getList" "ALL" "NAME" 10 1 none)

/-- A complete, valid keyword-argument set for `Contact.__init__`. -/
def goodKwargs : ContactKwargs :=
  { organization_name := none, job_title := none, first_name := some "John",
    last_name := some "Doe", address1 := some "1 Main St", address2 := none,
    city := some "Springfield", state_province := some "IL",
    state_province_choice := none, postal_code := some "62701",
    country := some "US", phone := some "+111.2223334", phone_ext := none,
    fax := none, email := none, email_address := some "john@example.com" }

/-- The contact `Contact(**goodKwargs)` builds. -/
def witRegistrant : Contact :=
  Contact.mk "" none none "John" "Doe" "1 Main St" none "Springfield" "IL" none
    "62701" "US" "+111.2223334" none none "john@example.com"

/-- An admin contact whose caller-chosen prefix collides with the
registrant's `Registrant` prefix. -/
def evilAdmin : Contact :=
  Contact.mk "Registrant" none none "Eve" "Adversary" "2 Main St" none
    "Springfield" "IL" none "62701" "US" "+999.8887776" none none
    "eve@example.com"

/-- The sample registrant after `domains_create` sets its prefix. -/
def witReg : Contact := { witRegistrant with _prefix := "Registrant" }

/-- The defaulted admin copy of the sample registrant. -/
def witAdmCopy : Contact := { witReg with _prefix := "Admin" }

/-- The defaulted tech copy of the sample registrant. -/
def witTecCopy : Contact := { witReg with _prefix := "Tech" }

/-- The defaulted aux-billing copy of the sample registrant. -/
def witAuxCopy : Contact := { witReg with _prefix := "AuxBilling" }

/-- The parameter dictionary of an all-defaults `domains_create` call. -/
def witCreateOpts : List (String × Val) :=
  domainsCreateOpts "example.com" 1 witReg witAdmCopy witTecCopy witAuxCopy

/-! ## Dictionary lemmas -/

theorem alookup_nil {α : Type} (k : String) : alookup ([] : List (String × α)) k = none := rfl

theorem alookup_cons {α : Type} (k0 : String) (v0 : α) (tl : List (String × α)) (k : String) :
    alookup ((k0, v0) :: tl) k = if k0 = k then some v0 else alookup tl k := rfl

theorem alookup_eq_none_iff {α : Type} (d : List (String × α)) (k : String) :
    alookup d k = none ↔ k ∉ d.map Prod.fst := by
  induction d with
  | nil => simp [alookup_nil]
  | cons hd tl ih =>
    obtain ⟨k0, v0⟩ := hd
    rw [alookup_cons]
    by_cases h : k0 = k
    · subst h
      simp
    · rw [if_neg h, ih]
      simp only [List.map_cons, List.mem_cons]
      constructor
      · intro hn hor
        rcases hor with h' | h'
        · exact h h'.symm
        · exact hn h'
      · intro hn h'
        exact hn (Or.inr h')

theorem alookup_append {α : Type} (d e : List (String × α)) (k : String) :
    alookup (d ++ e) k = (alookup d k).orElse (fun _ => alookup e k) := by
  induction d with
  | nil => simp [alookup_nil]
  | cons hd tl ih =>
    obtain ⟨k0, v0⟩ := hd
    by_cases h : k0 = k <;> simp [alookup_cons, h, ih]

theorem alookup_map_entry {α : Type} (d : List (String × α)) (k k' : String) (v : α)
    (hne : k ≠ k') :
    alookup (d.map (fun kv => if kv.1 = k then (k, v) else kv)) k' = alookup d k' := by
  induction d with
  | nil => simp [alookup_nil]
  | cons hd tl ih =>
    obtain ⟨k0, v0⟩ := hd
    simp only [List.map_cons]
    by_cases h : k0 = k
    · subst h
      rw [show (if (k0, v0).1 = k0 then (k0, v) else (k0, v0)) = (k0, v) from if_pos rfl]
      rw [alookup_cons, alookup_cons, if_neg hne, if_neg hne, ih]
    · rw [show (if (k0, v0).1 = k then (k, v) else (k0, v0)) = (k0, v0) from if_neg h]
      rw [alookup_cons, alookup_cons, ih]

theorem alookup_map_entry_self {α : Type} (d : List (String × α)) (k : String) (v : α)
    (hmem : k ∈ d.map Prod.fst) :
    alookup (d.map (fun kv => if kv.1 = k then (k, v) else kv)) k = some v := by
  induction d with
  | nil => simp at hmem
  | cons hd tl ih =>
    obtain ⟨k0, v0⟩ := hd
    simp only [List.map_cons]
    by_cases h : k0 = k
    · subst h
      rw [show (if (k0, v0).1 = k0 then (k0, v) else (k0, v0)) = (k0, v) from if_pos rfl]
      rw [alookup_cons, if_pos rfl]
    · rw [show (if (k0, v0).1 = k then (k, v) else (k0, v0)) = (k0, v0) from if_neg h]
      simp only [List.map_cons, List.mem_cons] at hmem
      rcases hmem with h' | h'
      · exact absurd h'.symm h
      · rw [alookup_cons, if_neg h, ih h']

theorem alookup_dictSet {α : Type} (d : List (String × α)) (k k' : String) (v : α) :
    alookup (dictSet d k v) k' = if k = k' then some v else alookup d k' := by
  unfold dictSet
  by_cases hmem : k ∈ d.map Prod.fst
  · simp only [hmem, if_true]
    by_cases h : k = k'
    · subst h
      simp [alookup_map_entry_self d k v hmem]
    · simp [alookup_map_entry d k k' v h, h]
  · simp only [hmem, if_false]
    rw [alookup_append]
    by_cases h : k = k'
    · subst h
      rw [(alookup_eq_none_iff d k).mpr hmem]
      simp [alookup_cons]
    · rw [alookup_cons, alookup_nil, if_neg h, if_neg h]
      cases alookup d k' <;> rfl

theorem alookup_dictUpdate {α : Type} (upd : List (String × α)) (d : List (String × α))
    (k : String) (hnd : (upd.map Prod.fst).Nodup) :
    alookup (dictUpdate d upd) k = (alookup upd k).orElse (fun _ => alookup d k) := by
  induction upd generalizing d with
  | nil => simp [dictUpdate, alookup]
  | cons hd tl ih =>
    obtain ⟨k0, v0⟩ := hd
    simp only [List.map_cons, List.nodup_cons] at hnd
    show alookup (dictUpdate (dictSet d k0 v0) tl) k = _
    rw [ih _ hnd.2]
    by_cases h : k0 = k
    · subst h
      have htl : alookup tl k0 = none :=
        (alookup_eq_none_iff tl k0).mpr hnd.1
      simp [alookup, htl, alookup_dictSet]
    · simp [alookup, h, alookup_dictSet]

theorem alookup_of_mem_nodup {α : Type} (d : List (String × α)) (k : String) (v : α)
    (hmem : (k, v) ∈ d) (hnd : (d.map Prod.fst).Nodup) :
    alookup d k = some v := by
  induction d with
  | nil => simp at hmem
  | cons hd tl ih =>
    obtain ⟨k0, v0⟩ := hd
    simp only [List.map_cons, List.nodup_cons] at hnd
    rcases List.mem_cons.mp hmem with h | h
    · rw [← h]
      simp [alookup]
    · have hk : k0 ≠ k := by
        rintro rfl
        exact hnd.1 (List.mem_map.mpr ⟨(k0, v), h, rfl⟩)
      simp [alookup, hk, ih h hnd.2]

theorem alookup_map_val {α β : Type} (d : List (String × α)) (f : α → β) (k : String) :
    alookup (d.map (fun kv => (kv.1, f kv.2))) k = (alookup d k).map f := by
  induction d with
  | nil => simp [alookup_nil]
  | cons hd tl ih =>
    obtain ⟨k0, v0⟩ := hd
    by_cases h : k0 = k <;> simp [alookup_cons, h, ih]

/-! ## Fold lemmas for `as_dict` -/

theorem dictSet_of_not_mem {α : Type} (d : List (String × α)) (k : String) (v : α)
    (h : k ∉ d.map Prod.fst) : dictSet d k v = d ++ [(k, v)] := by
  unfold dictSet
  rw [if_neg h]

theorem foldl_dictSet_append {α : Type} :
    ∀ (l : List (String × α)) (acc : List (String × α)),
      (acc.map Prod.fst ++ l.map Prod.fst).Nodup →
      l.foldl (fun ret kv => dictSet ret kv.1 kv.2) acc = acc ++ l := by
  intro l
  induction l with
  | nil =>
    intro acc _
    simp
  | cons hd tl ih =>
    intro acc hnd
    obtain ⟨k, v⟩ := hd
    simp only [List.map_cons] at hnd
    rw [List.nodup_append] at hnd
    obtain ⟨h1, h2, hdisj⟩ := hnd
    have hk : k ∉ acc.map Prod.fst := fun hmem => hdisj hmem (List.mem_cons_self k _)
    have hnd' : ((acc ++ [(k, v)]).map Prod.fst ++ tl.map Prod.fst).Nodup := by
      rw [List.map_append, List.append_assoc]
      rw [List.nodup_append]
      refine ⟨h1, by simpa using h2, ?_⟩
      intro a ha hb
      exact hdisj ha (by simpa using hb)
    rw [List.foldl_cons]
    show List.foldl _ (dictSet acc k v) tl = _
    rw [dictSet_of_not_mem acc k v hk, ih _ hnd']
    simp

theorem foldl_asDictFold (g : String → String) :
    ∀ (l : List (String × Option String)) (acc : List (String × String)),
      l.foldl (asDictFold g) acc
        = (l.filterMap (fun e => e.2.map (fun v => (g e.1, v)))).foldl
            (fun ret kv => dictSet ret kv.1 kv.2) acc := by
  intro l
  induction l with
  | nil =>
    intro acc
    rfl
  | cons hd tl ih =>
    intro acc
    obtain ⟨n, o⟩ := hd
    cases o with
    | none => simpa [asDictFold] using ih acc
    | some v => simpa [asDictFold] using ih (dictSet acc (g n) v)

theorem filterMap_keys_sublist {α : Type} (g : String → String) :
    ∀ (l : List (String × Option α)),
      ((l.filterMap (fun e => e.2.map (fun v => (g e.1, v)))).map Prod.fst).Sublist
        (l.map (fun e => g e.1)) := by
  intro l
  induction l with
  | nil => simp
  | cons hd tl ih =>
    obtain ⟨n, o⟩ := hd
    cases o with
    | none => simpa using ih.cons (g n)
    | some v => simpa using ih.cons₂ (g n)

/-! ## String lemmas -/

theorem string_append_cancel_iff (p a b : String) : p ++ a = p ++ b ↔ a = b := by
  constructor
  · intro h
    have h2 : p.data ++ a.data = p.data ++ b.data := by
      rw [← String.data_append, ← String.data_append, h]
    exact String.ext (List.append_cancel_left h2)
  · intro h
    rw [h]

theorem suffix_of_append_eq (p n s : String) (h : p ++ n = s) : n.data <:+ s.data :=
  ⟨p.data, by rw [← String.data_append, h]⟩

/-- No camel name is a suffix of a different camel name. -/
theorem noProperSuffix :
    ∀ n ∈ camelNames, ∀ m ∈ camelNames, n.data <:+ m.data → n = m := by decide

theorem camelNames_nodup : camelNames.Nodup := by decide

theorem camelNames_append_inj (p q n m : String) (hn : n ∈ camelNames)
    (hm : m ∈ camelNames) (h : p ++ n = q ++ m) : p = q ∧ n = m := by
  have hsn : n.data <:+ (q ++ m).data := suffix_of_append_eq p n _ h
  have hsm : m.data <:+ (q ++ m).data := suffix_of_append_eq q m _ rfl
  have hnm : n = m := by
    rcases List.suffix_or_suffix_of_suffix hsn hsm with h' | h'
    · exact noProperSuffix n hn m hm h'
    · exact (noProperSuffix m hm n hn h').symm
  subst hnm
  refine ⟨?_, rfl⟩
  have h2 : p.data ++ n.data = q.data ++ n.data := by
    rw [← String.data_append, ← String.data_append, h]
  exact String.ext (List.append_cancel_right h2)

theorem nodup_map_append (p : String) (l : List String) (h : l.Nodup) :
    (l.map (fun n => p ++ n)).Nodup :=
  h.map (fun a b hab => (string_append_cancel_iff p a b).mp hab)

/-! ## `_camelize` on the fifteen attribute names -/

theorem camelize_address1 : Contact._camelize "address1" = "Address1" := by decide
theorem camelize_address2 : Contact._camelize "address2" = "Address2" := by decide
theorem camelize_city : Contact._camelize "city" = "City" := by decide
theorem camelize_country : Contact._camelize "country" = "Country" := by decide
theorem camelize_email_address : Contact._camelize "email_address" = "EmailAddress" := by decide
theorem camelize_fax : Contact._camelize "fax" = "Fax" := by decide
theorem camelize_first_name : Contact._camelize "first_name" = "FirstName" := by decide
theorem camelize_job_title : Contact._camelize "job_title" = "JobTitle" := by decide
theorem camelize_last_name : Contact._camelize "last_name" = "LastName" := by decide
theorem camelize_organization_name :
    Contact._camelize "organization_name" = "OrganizationName" := by decide
theorem camelize_phone : Contact._camelize "phone" = "Phone" := by decide
theorem camelize_phone_ext : Contact._camelize "phone_ext" = "PhoneExt" := by decide
theorem camelize_postal_code : Contact._camelize "postal_code" = "PostalCode" := by decide
theorem camelize_state_province :
    Contact._camelize "state_province" = "StateProvince" := by decide
theorem camelize_state_province_choice :
    Contact._camelize "state_province_choice" = "StateProvinceChoice" := by decide

theorem attrs_keys_map (c : Contact) :
    (Contact.attrs c).map (fun e => Contact._prefix c ++ Contact._camelize e.1)
      = camelNames.map (fun n => Contact._prefix c ++ n) := by
  simp [Contact.attrs, camelNames, camelize_address1, camelize_address2, camelize_city,
    camelize_country, camelize_email_address, camelize_fax, camelize_first_name,
    camelize_job_title, camelize_last_name, camelize_organization_name, camelize_phone,
    camelize_phone_ext, camelize_postal_code, camelize_state_province,
    camelize_state_province_choice]

/-- The central `as_dict` characterization: the dictionary pairs each
present attribute value with `prefix ++ CamelCaseName`. -/
theorem Contact.as_dict_eq (c : Contact) :
    Contact.as_dict c = Contact.camelizedDict c := by
  rw [Contact.as_dict, foldl_asDictFold, foldl_dictSet_append]
  · rw [List.nil_append]
    simp only [Contact.attrs, Contact.camelizedDict, Contact.camelNameEntries, prefixedEntries]
    cases hA2 : c.address2 <;> cases hF : c.fax <;> cases hJT : c.job_title <;>
      cases hON : c.organization_name <;> cases hPE : c.phone_ext <;>
      cases hSPC : c.state_province_choice <;>
      simp [camelize_address1, camelize_address2, camelize_city, camelize_country,
        camelize_email_address, camelize_fax, camelize_first_name, camelize_job_title,
        camelize_last_name, camelize_organization_name, camelize_phone, camelize_phone_ext,
        camelize_postal_code, camelize_state_province, camelize_state_province_choice]
  · simp only [List.map_nil, List.nil_append]
    refine List.Sublist.nodup
      (filterMap_keys_sublist (fun attr => Contact._prefix c ++ Contact._camelize attr)
        (Contact.attrs c)) ?_
    have h := nodup_map_append (Contact._prefix c) camelNames camelNames_nodup
    rw [← attrs_keys_map c] at h
    exact h

/-! ## `Except` reduction lemmas -/

theorem except_bind_ok {ε α β : Type} (a : α) (f : α → Except ε β) :
    (Except.ok a : Except ε α) >>= f = f a := rfl

theorem except_bind_error {ε α β : Type} (e : ε) (f : α → Except ε β) :
    (Except.error e : Except ε α) >>= f = Except.error e := rfl

theorem except_pure {ε α : Type} (a : α) : (pure a : Except ε α) = Except.ok a := rfl

/-! ## `Contact.__init__` unfolding -/

theorem effReq_first_name (kw : ContactKwargs) :
    effectiveRequired kw "first_name" = kw.first_name := rfl

theorem effReq_last_name (kw : ContactKwargs) :
    effectiveRequired kw "last_name" = kw.last_name := rfl

theorem effReq_address1 (kw : ContactKwargs) :
    effectiveRequired kw "address1" = kw.address1 := rfl

theorem effReq_city (kw : ContactKwargs) :
    effectiveRequired kw "city" = kw.city := rfl

theorem effReq_state_province (kw : ContactKwargs) :
    effectiveRequired kw "state_province" = kw.state_province := rfl

theorem effReq_country (kw : ContactKwargs) :
    effectiveRequired kw "country" = kw.country := rfl

theorem effReq_postal_code (kw : ContactKwargs) :
    effectiveRequired kw "postal_code" = kw.postal_code := rfl

theorem effReq_phone (kw : ContactKwargs) :
    effectiveRequired kw "phone" = kw.phone := rfl

theorem effReq_email_address (kw : ContactKwargs) :
    effectiveRequired kw "email_address"
      = (match kw.email with
         | some e => if e = "" then kw.email_address else some e
         | none => kw.email_address) := rfl

/-- Once every required keyword is present (`email_address` possibly via a
truthy `email`), `__init__` builds the record and runs `validate` on it. -/
theorem init_eq (pfx : String) (kw : ContactKwargs) (v1 v2 v3 v4 v5 v6 v7 v8 v9 : String)
    (h1 : kw.first_name = some v1) (h2 : kw.last_name = some v2)
    (h3 : kw.address1 = some v3) (h4 : kw.city = some v4)
    (h5 : kw.state_province = some v5) (h6 : kw.postal_code = some v6)
    (h7 : kw.country = some v7) (h8 : kw.phone = some v8)
    (h9 : effectiveRequired kw "email_address" = some v9) :
    Contact.init pfx kw =
      (Contact.mk pfx kw.organization_name kw.job_title v1 v2 v3 kw.address2 v4 v5
          kw.state_province_choice v6 v7 v8 kw.phone_ext kw.fax v9).validate >>=
        fun _ => Except.ok (Contact.mk pfx kw.organization_name kw.job_title v1 v2 v3
          kw.address2 v4 v5 kw.state_province_choice v6 v7 v8 kw.phone_ext kw.fax v9) := by
  rw [effReq_email_address] at h9
  rcases hE : kw.email with _ | e
  · rw [hE] at h9
    have h9' : kw.email_address = some v9 := h9
    simp [Contact.init, reqItem, h1, h2, h3, h4, h5, h6, h7, h8, hE, h9',
      except_bind_ok, except_bind_error, except_pure]
  · rw [hE] at h9
    have h9' : (if e = "" then kw.email_address else some e) = some v9 := h9
    by_cases he : e = ""
    · rw [if_pos he] at h9'
      simp [Contact.init, reqItem, h1, h2, h3, h4, h5, h6, h7, h8, hE, he, h9',
        except_bind_ok, except_bind_error, except_pure]
    · rw [if_neg he] at h9'
      obtain rfl : e = v9 := by injection h9'
      simp [Contact.init, reqItem, h1, h2, h3, h4, h5, h6, h7, h8, hE, he,
        except_bind_ok, except_bind_error, except_pure]

/-- A string that begins with the exact phone pattern passes
`_validate_phone_number`, whatever follows: `re.match` only anchors at the
start. -/
theorem validate_phone_of_prefix (t s : String) (h : phoneFormatExact t = true) :
    Contact._validate_phone_number (t ++ s) = true := by
  unfold phoneFormatExact at h
  split at h
  next a b c d e f g h' i j heq =>
    unfold Contact._validate_phone_number
    rw [String.data_append, heq]
    simpa using h
  next =>
    exact absurd h (by simp)

/-- Extract the nine required values (present and non-empty) from the
blanket hypothesis. -/
theorem required_values (kw : ContactKwargs)
    (hall : ∀ f ∈ Contact.required_fields,
      effectiveRequired kw f ≠ none ∧ effectiveRequired kw f ≠ some "") :
    ∃ v1 v2 v3 v4 v5 v6 v7 v8 v9,
      kw.first_name = some v1 ∧ v1 ≠ "" ∧ kw.last_name = some v2 ∧ v2 ≠ "" ∧
      kw.address1 = some v3 ∧ v3 ≠ "" ∧ kw.city = some v4 ∧ v4 ≠ "" ∧
      kw.state_province = some v5 ∧ v5 ≠ "" ∧ kw.postal_code = some v6 ∧ v6 ≠ "" ∧
      kw.country = some v7 ∧ v7 ≠ "" ∧ kw.phone = some v8 ∧ v8 ≠ "" ∧
      effectiveRequired kw "email_address" = some v9 ∧ v9 ≠ "" := by
  have g1 : kw.first_name ≠ none := by
    have h := (hall "first_name" (by decide)).1
    rw [effReq_first_name] at h
    exact h
  obtain ⟨v1, h1⟩ := Option.ne_none_iff_exists'.mp g1
  have hv1 : v1 ≠ "" := fun hv =>
    (hall "first_name" (by decide)).2 (by rw [effReq_first_name, h1, hv])
  have g2 : kw.last_name ≠ none := by
    have h := (hall "last_name" (by decide)).1
    rw [effReq_last_name] at h
    exact h
  obtain ⟨v2, h2⟩ := Option.ne_none_iff_exists'.mp g2
  have hv2 : v2 ≠ "" := fun hv =>
    (hall "last_name" (by decide)).2 (by rw [effReq_last_name, h2, hv])
  have g3 : kw.address1 ≠ none := by
    have h := (hall "address1" (by decide)).1
    rw [effReq_address1] at h
    exact h
  obtain ⟨v3, h3⟩ := Option.ne_none_iff_exists'.mp g3
  have hv3 : v3 ≠ "" := fun hv =>
    (hall "address1" (by decide)).2 (by rw [effReq_address1, h3, hv])
  have g4 : kw.city ≠ none := by
    have h := (hall "city" (by decide)).1
    rw [effReq_city] at h
    exact h
  obtain ⟨v4, h4⟩ := Option.ne_none_iff_exists'.mp g4
  have hv4 : v4 ≠ "" := fun hv =>
    (hall "city" (by decide)).2 (by rw [effReq_city, h4, hv])
  have g5 : kw.state_province ≠ none := by
    have h := (hall "state_province" (by decide)).1
    rw [effReq_state_province] at h
    exact h
  obtain ⟨v5, h5⟩ := Option.ne_none_iff_exists'.mp g5
  have hv5 : v5 ≠ "" := fun hv =>
    (hall "state_province" (by decide)).2 (by rw [effReq_state_province, h5, hv])
  have g6 : kw.postal_code ≠ none := by
    have h := (hall "postal_code" (by decide)).1
    rw [effReq_postal_code] at h
    exact h
  obtain ⟨v6, h6⟩ := Option.ne_none_iff_exists'.mp g6
  have hv6 : v6 ≠ "" := fun hv =>
    (hall "postal_code" (by decide)).2 (by rw [effReq_postal_code, h6, hv])
  have g7 : kw.country ≠ none := by
    have h := (hall "country" (by decide)).1
    rw [effReq_country] at h
    exact h
  obtain ⟨v7, h7⟩ := Option.ne_none_iff_exists'.mp g7
  have hv7 : v7 ≠ "" := fun hv =>
    (hall "country" (by decide)).2 (by rw [effReq_country, h7, hv])
  have g8 : kw.phone ≠ none := by
    have h := (hall "phone" (by decide)).1
    rw [effReq_phone] at h
    exact h
  obtain ⟨v8, h8⟩ := Option.ne_none_iff_exists'.mp g8
  have hv8 : v8 ≠ "" := fun hv =>
    (hall "phone" (by decide)).2 (by rw [effReq_phone, h8, hv])
  obtain ⟨v9, h9⟩ := Option.ne_none_iff_exists'.mp
    (hall "email_address" (by decide)).1
  have hv9 : v9 ≠ "" := fun hv =>
    (hall "email_address" (by decide)).2 (by rw [h9, hv])
  exact ⟨v1, v2, v3, v4, v5, v6, v7, v8, v9, h1, hv1, h2, hv2, h3, hv3, h4, hv4,
    h5, hv5, h6, hv6, h7, hv7, h8, hv8, h9, hv9⟩

/-! ## Lemmas about contact dictionaries inside a parameter map -/

theorem none_orElse_thunk {α : Type} (f : Unit → Option α) :
    (none : Option α).orElse f = f () := rfl

theorem some_orElse_thunk {α : Type} (a : α) (f : Unit → Option α) :
    (some a : Option α).orElse f = some a := rfl

theorem asValDict_keys (x : Contact) :
    (asValDict x).map Prod.fst = (Contact.as_dict x).map Prod.fst := by
  simp [asValDict]

theorem camelNameEntries_keys (x : Contact) :
    (Contact.camelNameEntries x).map Prod.fst = camelNames := by
  simp [Contact.camelNameEntries, camelNames]

theorem as_dict_keys_nodup (x : Contact) :
    ((Contact.as_dict x).map Prod.fst).Nodup := by
  rw [Contact.as_dict_eq]
  simp only [Contact.camelizedDict, prefixedEntries]
  have hsub := filterMap_keys_sublist (fun n => Contact._prefix x ++ n)
    (Contact.camelNameEntries x)
  have hmap : (Contact.camelNameEntries x).map
      (fun e => (fun n => Contact._prefix x ++ n) e.1)
      = camelNames.map (fun n => Contact._prefix x ++ n) := by
    simp [Contact.camelNameEntries, camelNames]
  rw [hmap] at hsub
  exact List.Sublist.nodup hsub (nodup_map_append _ _ camelNames_nodup)

theorem asValDict_keys_nodup (x : Contact) :
    ((asValDict x).map Prod.fst).Nodup := by
  rw [asValDict_keys]
  exact as_dict_keys_nodup x

theorem as_dict_mem_key (x : Contact) (k v : String)
    (h : (k, v) ∈ Contact.as_dict x) :
    ∃ n ∈ camelNames, k = Contact._prefix x ++ n := by
  rw [Contact.as_dict_eq] at h
  simp only [Contact.camelizedDict, prefixedEntries, List.mem_filterMap] at h
  obtain ⟨e, he, hfe⟩ := h
  rcases e2 : e.2 with _ | w
  · rw [e2] at hfe
    exact Option.noConfusion hfe
  · rw [e2] at hfe
    injection hfe with h1
    refine ⟨e.1, ?_, ?_⟩
    · rw [← camelNameEntries_keys x]
      exact List.mem_map_of_mem Prod.fst he
    · exact (congrArg Prod.fst h1).symm

theorem as_dict_alookup_none (x : Contact) (k : String)
    (hk : ∀ n ∈ camelNames, k ≠ Contact._prefix x ++ n) :
    alookup (asValDict x) k = none := by
  rw [alookup_eq_none_iff, asValDict_keys]
  intro hmem
  obtain ⟨kv, hkv, hfst⟩ := List.mem_map.mp hmem
  obtain ⟨n, hn, hkn⟩ := as_dict_mem_key x kv.1 kv.2 hkv
  exact hk n hn (hfst ▸ hkn)

theorem as_dict_alookup_mem (x : Contact) (k v : String)
    (h : (k, v) ∈ Contact.as_dict x) :
    alookup (asValDict x) k = some (Val.s v) := by
  unfold asValDict
  rw [alookup_map_val, alookup_of_mem_nodup _ _ _ h (as_dict_keys_nodup x)]
  rfl

theorem ne_of_prefix_ne (p q n m : String) (hn : n ∈ camelNames)
    (hm : m ∈ camelNames) (hpq : p ≠ q) : p ++ n ≠ q ++ m :=
  fun h => hpq (camelNames_append_inj p q n m hn hm h).1

theorem alookup_dictUpdate_asVal (d : List (String × Val)) (x : Contact) (k : String) :
    alookup (dictUpdate d (asValDict x)) k
      = ((alookup (asValDict x) k).orElse (fun _ => alookup d k)) :=
  alookup_dictUpdate _ _ _ (asValDict_keys_nodup x)

/-- A key of the form `q ++ n` with `q` different from the contact's prefix
is untouched by merging that contact's dictionary. -/
theorem alookup_update_skip (d : List (String × Val)) (x : Contact) (q n : String)
    (hn : n ∈ camelNames) (hq : q ≠ Contact._prefix x) :
    alookup (dictUpdate d (asValDict x)) (q ++ n) = alookup d (q ++ n) := by
  rw [alookup_dictUpdate_asVal,
    as_dict_alookup_none x (q ++ n)
      (fun m hm hkm => ne_of_prefix_ne q (Contact._prefix x) n m hn hm hq hkm),
    none_orElse_thunk]

/-- An entry of a contact's dictionary survives merging that dictionary. -/
theorem alookup_update_hit (d : List (String × Val)) (x : Contact) (k v : String)
    (h : (k, v) ∈ Contact.as_dict x) :
    alookup (dictUpdate d (asValDict x)) k = some (Val.s v) := by
  rw [alookup_dictUpdate_asVal, as_dict_alookup_mem x k v h, some_orElse_thunk]

theorem camelNames_not_suffix_command :
    ∀ n ∈ camelNames, ¬ (n.data <:+ "Command".data) := by decide

theorem camelNames_not_suffix_domain_name :
    ∀ n ∈ camelNames, ¬ (n.data <:+ "DomainName".data) := by decide

theorem camelNames_not_suffix_years :
    ∀ n ∈ camelNames, ¬ (n.data <:+ "Years".data) := by decide

/-- A key of which no camel name is a suffix is untouched by merging any
contact's dictionary. -/
theorem alookup_update_lit (d : List (String × Val)) (x : Contact) (k : String)
    (hk : ∀ n ∈ camelNames, ¬ (n.data <:+ k.data)) :
    alookup (dictUpdate d (asValDict x)) k = alookup d k := by
  rw [alookup_dictUpdate_asVal,
    as_dict_alookup_none x k
      (fun n hn h => hk n hn (suffix_of_append_eq _ _ _ h.symm)),
    none_orElse_thunk]

/-! ## Claim C1 -/

/-- C1, counterexample: the claim says a missing required field makes
construction fail with a `ContactValidationError` naming the field, but a
missing `first_name` raises a `KeyError` (the `kwargs['first_name']`
lookup), which is not a `ContactValidationError`. -/
theorem claim_C1_counterexample :
    Contact.init "" { goodKwargs with first_name := none }
      = .error (.keyError "first_name") := by decide

/-- C1, amended: if a required field is absent from the keywords,
construction fails with a `KeyError` naming a missing field; if all are
present but one is empty, it fails with a `ContactValidationError` naming
an empty field; if all are present and non-empty, the phone is valid and
any provided non-empty fax is valid, construction succeeds. -/
theorem claim_C1_amended (pfx : String) (kw : ContactKwargs) :
    ((∃ f ∈ Contact.required_fields, effectiveRequired kw f = none) →
      ∃ f ∈ Contact.required_fields, effectiveRequired kw f = none ∧
        Contact.init pfx kw = .error (.keyError f)) ∧
    ((∀ f ∈ Contact.required_fields, effectiveRequired kw f ≠ none) →
     (∃ f ∈ Contact.required_fields, effectiveRequired kw f = some "") →
      ∃ f ∈ Contact.required_fields, effectiveRequired kw f = some "" ∧
        Contact.init pfx kw = .error (.contactValidationError (f ++ " is required"))) ∧
    ((∀ f ∈ Contact.required_fields,
        effectiveRequired kw f ≠ none ∧ effectiveRequired kw f ≠ some "") →
     (∀ p, effectiveRequired kw "phone" = some p → Contact._validate_phone_number p = true) →
     (∀ fx, kw.fax = some fx → fx ≠ "" → Contact._validate_phone_number fx = true) →
      ∃ ct, Contact.init pfx kw = .ok ct) := by
  refine ⟨?_, ?_, ?_⟩
  · intro hex
    rcases h1 : kw.first_name with _ | v1
    · exact ⟨"first_name", by decide, by rw [effReq_first_name]; exact h1,
        by simp [Contact.init, reqItem, h1, except_bind_ok, except_bind_error, except_pure]⟩
    rcases h2 : kw.last_name with _ | v2
    · exact ⟨"last_name", by decide, by rw [effReq_last_name]; exact h2,
        by simp [Contact.init, reqItem, h1, h2,
          except_bind_ok, except_bind_error, except_pure]⟩
    rcases h3 : kw.address1 with _ | v3
    · exact ⟨"address1", by decide, by rw [effReq_address1]; exact h3,
        by simp [Contact.init, reqItem, h1, h2, h3,
          except_bind_ok, except_bind_error, except_pure]⟩
    rcases h4 : kw.city with _ | v4
    · exact ⟨"city", by decide, by rw [effReq_city]; exact h4,
        by simp [Contact.init, reqItem, h1, h2, h3, h4,
          except_bind_ok, except_bind_error, except_pure]⟩
    rcases h5 : kw.state_province with _ | v5
    · exact ⟨"state_province", by decide, by rw [effReq_state_province]; exact h5,
        by simp [Contact.init, reqItem, h1, h2, h3, h4, h5,
          except_bind_ok, except_bind_error, except_pure]⟩
    rcases h6 : kw.postal_code with _ | v6
    · exact ⟨"postal_code", by decide, by rw [effReq_postal_code]; exact h6,
        by simp [Contact.init, reqItem, h1, h2, h3, h4, h5, h6,
          except_bind_ok, except_bind_error, except_pure]⟩
    rcases h7 : kw.country with _ | v7
    · exact ⟨"country", by decide, by rw [effReq_country]; exact h7,
        by simp [Contact.init, reqItem, h1, h2, h3, h4, h5, h6, h7,
          except_bind_ok, except_bind_error, except_pure]⟩
    rcases h8 : kw.phone with _ | v8
    · exact ⟨"phone", by decide, by rw [effReq_phone]; exact h8,
        by simp [Contact.init, reqItem, h1, h2, h3, h4, h5, h6, h7, h8,
          except_bind_ok, except_bind_error, except_pure]⟩
    rcases hE : kw.email with _ | e
    · rcases h9 : kw.email_address with _ | v9
      · exact ⟨"email_address", by decide, by simp [effReq_email_address, hE, h9],
          by simp [Contact.init, reqItem, h1, h2, h3, h4, h5, h6, h7, h8, hE, h9,
            except_bind_ok, except_bind_error, except_pure]⟩
      · exfalso
        obtain ⟨f, hf, hnone⟩ := hex
        fin_cases hf <;>
          simp [effReq_first_name, effReq_last_name, effReq_address1, effReq_city,
            effReq_state_province, effReq_country, effReq_postal_code, effReq_phone,
            effReq_email_address, h1, h2, h3, h4, h5, h6, h7, h8, hE, h9] at hnone
    · by_cases he : e = ""
      · rcases h9 : kw.email_address with _ | v9
        · exact ⟨"email_address", by decide, by simp [effReq_email_address, hE, he, h9],
            by simp [Contact.init, reqItem, h1, h2, h3, h4, h5, h6, h7, h8, hE, he, h9,
              except_bind_ok, except_bind_error, except_pure]⟩
        · exfalso
          obtain ⟨f, hf, hnone⟩ := hex
          fin_cases hf <;>
            simp [effReq_first_name, effReq_last_name, effReq_address1, effReq_city,
              effReq_state_province, effReq_country, effReq_postal_code, effReq_phone,
              effReq_email_address, h1, h2, h3, h4, h5, h6, h7, h8, hE, he, h9] at hnone
      · exfalso
        obtain ⟨f, hf, hnone⟩ := hex
        fin_cases hf <;>
          simp [effReq_first_name, effReq_last_name, effReq_address1, effReq_city,
            effReq_state_province, effReq_country, effReq_postal_code, effReq_phone,
            effReq_email_address, h1, h2, h3, h4, h5, h6, h7, h8, hE, he] at hnone
  · intro hall hex
    have g1 := hall "first_name" (by decide)
    rw [effReq_first_name] at g1
    obtain ⟨v1, h1⟩ := Option.ne_none_iff_exists'.mp g1
    have g2 := hall "last_name" (by decide)
    rw [effReq_last_name] at g2
    obtain ⟨v2, h2⟩ := Option.ne_none_iff_exists'.mp g2
    have g3 := hall "address1" (by decide)
    rw [effReq_address1] at g3
    obtain ⟨v3, h3⟩ := Option.ne_none_iff_exists'.mp g3
    have g4 := hall "city" (by decide)
    rw [effReq_city] at g4
    obtain ⟨v4, h4⟩ := Option.ne_none_iff_exists'.mp g4
    have g5 := hall "state_province" (by decide)
    rw [effReq_state_province] at g5
    obtain ⟨v5, h5⟩ := Option.ne_none_iff_exists'.mp g5
    have g6 := hall "postal_code" (by decide)
    rw [effReq_postal_code] at g6
    obtain ⟨v6, h6⟩ := Option.ne_none_iff_exists'.mp g6
    have g7 := hall "country" (by decide)
    rw [effReq_country] at g7
    obtain ⟨v7, h7⟩ := Option.ne_none_iff_exists'.mp g7
    have g8 := hall "phone" (by decide)
    rw [effReq_phone] at g8
    obtain ⟨v8, h8⟩ := Option.ne_none_iff_exists'.mp g8
    have g9 := hall "email_address" (by decide)
    obtain ⟨v9, h9⟩ := Option.ne_none_iff_exists'.mp g9
    rw [init_eq pfx kw v1 v2 v3 v4 v5 v6 v7 v8 v9 h1 h2 h3 h4 h5 h6 h7 h8 h9]
    by_cases hv1 : v1 = ""
    · exact ⟨"first_name", by decide, by rw [effReq_first_name, h1, hv1],
        by simp [Contact.validate, hv1, except_bind_error]⟩
    by_cases hv2 : v2 = ""
    · exact ⟨"last_name", by decide, by rw [effReq_last_name, h2, hv2],
        by simp [Contact.validate, hv1, hv2, except_bind_error]⟩
    by_cases hv3 : v3 = ""
    · exact ⟨"address1", by decide, by rw [effReq_address1, h3, hv3],
        by simp [Contact.validate, hv1, hv2, hv3, except_bind_error]⟩
    by_cases hv4 : v4 = ""
    · exact ⟨"city", by decide, by rw [effReq_city, h4, hv4],
        by simp [Contact.validate, hv1, hv2, hv3, hv4, except_bind_error]⟩
    by_cases hv5 : v5 = ""
    · exact ⟨"state_province", by decide, by rw [effReq_state_province, h5, hv5],
        by simp [Contact.validate, hv1, hv2, hv3, hv4, hv5, except_bind_error]⟩
    by_cases hv7 : v7 = ""
    · exact ⟨"country", by decide, by rw [effReq_country, h7, hv7],
        by simp [Contact.validate, hv1, hv2, hv3, hv4, hv5, hv7, except_bind_error]⟩
    by_cases hv6 : v6 = ""
    · exact ⟨"postal_code", by decide, by rw [effReq_postal_code, h6, hv6],
        by simp [Contact.validate, hv1, hv2, hv3, hv4, hv5, hv6, hv7, except_bind_error]⟩
    by_cases hv8 : v8 = ""
    · exact ⟨"phone", by decide, by rw [effReq_phone, h8, hv8],
        by simp [Contact.validate, hv1, hv2, hv3, hv4, hv5, hv6, hv7, hv8,
          except_bind_error]⟩
    by_cases hv9 : v9 = ""
    · exact ⟨"email_address", by decide, by rw [h9, hv9],
        by simp [Contact.validate, hv1, hv2, hv3, hv4, hv5, hv6, hv7, hv8, hv9,
          except_bind_error]⟩
    exfalso
    obtain ⟨f, hf, hsome⟩ := hex
    fin_cases hf <;>
      simp [effReq_first_name, effReq_last_name, effReq_address1, effReq_city,
        effReq_state_province, effReq_country, effReq_postal_code, effReq_phone,
        h1, h2, h3, h4, h5, h6, h7, h8, h9, hv1, hv2, hv3, hv4, hv5, hv6, hv7, hv8,
        hv9] at hsome
  · intro hall hph hfx
    have g1 : kw.first_name ≠ none := by
      have h := (hall "first_name" (by decide)).1
      rw [effReq_first_name] at h
      exact h
    obtain ⟨v1, h1⟩ := Option.ne_none_iff_exists'.mp g1
    have hv1 : v1 ≠ "" := fun hv =>
      (hall "first_name" (by decide)).2 (by rw [effReq_first_name, h1, hv])
    have g2 : kw.last_name ≠ none := by
      have h := (hall "last_name" (by decide)).1
      rw [effReq_last_name] at h
      exact h
    obtain ⟨v2, h2⟩ := Option.ne_none_iff_exists'.mp g2
    have hv2 : v2 ≠ "" := fun hv =>
      (hall "last_name" (by decide)).2 (by rw [effReq_last_name, h2, hv])
    have g3 : kw.address1 ≠ none := by
      have h := (hall "address1" (by decide)).1
      rw [effReq_address1] at h
      exact h
    obtain ⟨v3, h3⟩ := Option.ne_none_iff_exists'.mp g3
    have hv3 : v3 ≠ "" := fun hv =>
      (hall "address1" (by decide)).2 (by rw [effReq_address1, h3, hv])
    have g4 : kw.city ≠ none := by
      have h := (hall "city" (by decide)).1
      rw [effReq_city] at h
      exact h
    obtain ⟨v4, h4⟩ := Option.ne_none_iff_exists'.mp g4
    have hv4 : v4 ≠ "" := fun hv =>
      (hall "city" (by decide)).2 (by rw [effReq_city, h4, hv])
    have g5 : kw.state_province ≠ none := by
      have h := (hall "state_province" (by decide)).1
      rw [effReq_state_province] at h
      exact h
    obtain ⟨v5, h5⟩ := Option.ne_none_iff_exists'.mp g5
    have hv5 : v5 ≠ "" := fun hv =>
      (hall "state_province" (by decide)).2 (by rw [effReq_state_province, h5, hv])
    have g6 : kw.postal_code ≠ none := by
      have h := (hall "postal_code" (by decide)).1
      rw [effReq_postal_code] at h
      exact h
    obtain ⟨v6, h6⟩ := Option.ne_none_iff_exists'.mp g6
    have hv6 : v6 ≠ "" := fun hv =>
      (hall "postal_code" (by decide)).2 (by rw [effReq_postal_code, h6, hv])
    have g7 : kw.country ≠ none := by
      have h := (hall "country" (by decide)).1
      rw [effReq_country] at h
      exact h
    obtain ⟨v7, h7⟩ := Option.ne_none_iff_exists'.mp g7
    have hv7 : v7 ≠ "" := fun hv =>
      (hall "country" (by decide)).2 (by rw [effReq_country, h7, hv])
    have g8 : kw.phone ≠ none := by
      have h := (hall "phone" (by decide)).1
      rw [effReq_phone] at h
      exact h
    obtain ⟨v8, h8⟩ := Option.ne_none_iff_exists'.mp g8
    have hv8 : v8 ≠ "" := fun hv =>
      (hall "phone" (by decide)).2 (by rw [effReq_phone, h8, hv])
    obtain ⟨v9, h9⟩ := Option.ne_none_iff_exists'.mp
      (hall "email_address" (by decide)).1
    have hv9 : v9 ≠ "" := fun hv =>
      (hall "email_address" (by decide)).2 (by rw [h9, hv])
    have hph8 : Contact._validate_phone_number v8 = true :=
      hph v8 (by rw [effReq_phone]; exact h8)
    refine ⟨Contact.mk pfx kw.organization_name kw.job_title v1 v2 v3 kw.address2 v4 v5
      kw.state_province_choice v6 v7 v8 kw.phone_ext kw.fax v9, ?_⟩
    rw [init_eq pfx kw v1 v2 v3 v4 v5 v6 v7 v8 v9 h1 h2 h3 h4 h5 h6 h7 h8 h9]
    rcases hf : kw.fax with _ | fx
    · simp [Contact.validate, hv1, hv2, hv3, hv4, hv5, hv6, hv7, hv8, hv9, hph8, hf,
        except_bind_ok, except_pure]
    · by_cases hfe : fx = ""
      · simp [Contact.validate, hv1, hv2, hv3, hv4, hv5, hv6, hv7, hv8, hv9, hph8, hf,
          hfe, except_bind_ok, except_pure]
      · have := hfx fx hf hfe
        simp [Contact.validate, hv1, hv2, hv3, hv4, hv5, hv6, hv7, hv8, hv9, hph8, hf,
          hfe, this, except_bind_ok, except_pure]

/-- C1, witness: a missing `city` raises `KeyError('city')`; an empty
`phone` raises `ContactValidationError('phone is required')`; the complete
kwargs construct successfully. -/
theorem claim_C1_witness :
    (∃ f ∈ Contact.required_fields,
        effectiveRequired { goodKwargs with city := none } f = none ∧
        Contact.init "" { goodKwargs with city := none } = .error (.keyError f)) ∧
    (∃ f ∈ Contact.required_fields,
        effectiveRequired { goodKwargs with phone := some "" } f = some "" ∧
        Contact.init "" { goodKwargs with phone := some "" }
          = .error (.contactValidationError (f ++ " is required"))) ∧
    (∃ ct, Contact.init "" goodKwargs = .ok ct) :=
  ⟨(claim_C1_amended "" { goodKwargs with city := none }).1 (by decide),
   (claim_C1_amended "" { goodKwargs with phone := some "" }).2.1 (by decide) (by decide),
   (claim_C1_amended "" goodKwargs).2.2 (by decide) (by decide) (by decide)⟩

/-! ## Claim C4 -/

/-- C4, counterexample: `+123.45678901` has eight digits after the dot, so
it is not in the claimed format, yet construction succeeds, because
`re.match` only anchors the pattern at the start of the string. Likewise a
provided empty fax is not in the format but raises nothing (it is falsy and
skipped). -/
theorem claim_C4_counterexample :
    phoneFormatExact "+123.45678901" = false ∧
    (Contact.init "" { goodKwargs with phone := some "+123.45678901" }).isOk = true ∧
    (Contact.init "" { goodKwargs with fax := some "" }).isOk = true := by decide

/-- C4, amended: the phone is validated by matching `+`, three digits, a
dot and seven digits at the START of the string only (`re.match` is not
anchored at the end). A phone that does not begin with the pattern raises
`ContactValidationError('phone is not in valid format')`; a provided
non-empty fax that does not begin with it raises
`ContactValidationError('fax is not in valid format')`; an empty provided
fax is skipped; and any string beginning with the pattern passes. -/
theorem claim_C4_amended (pfx : String) (kw : ContactKwargs)
    (hall : ∀ f ∈ Contact.required_fields,
      effectiveRequired kw f ≠ none ∧ effectiveRequired kw f ≠ some "") :
    (∀ p, effectiveRequired kw "phone" = some p →
      (Contact._validate_phone_number p = false →
        Contact.init pfx kw = .error (.contactValidationError "phone is not in valid format")) ∧
      (Contact._validate_phone_number p = true →
        ∀ fx, kw.fax = some fx → fx ≠ "" → Contact._validate_phone_number fx = false →
          Contact.init pfx kw = .error (.contactValidationError "fax is not in valid format")) ∧
      (Contact._validate_phone_number p = true →
        (∀ fx, kw.fax = some fx → fx ≠ "" → Contact._validate_phone_number fx = true) →
        ∃ ct, Contact.init pfx kw = .ok ct ∧ ct.phone = p)) ∧
    (∀ t s, phoneFormatExact t = true → Contact._validate_phone_number (t ++ s) = true) := by
  obtain ⟨v1, v2, v3, v4, v5, v6, v7, v8, v9, h1, hv1, h2, hv2, h3, hv3, h4, hv4,
    h5, hv5, h6, hv6, h7, hv7, h8, hv8, h9, hv9⟩ := required_values kw hall
  refine ⟨?_, fun t s ht => validate_phone_of_prefix t s ht⟩
  intro p hp
  rw [effReq_phone, h8] at hp
  obtain rfl : v8 = p := by injection hp
  refine ⟨?_, ?_, ?_⟩
  · intro hbad
    rw [init_eq pfx kw v1 v2 v3 v4 v5 v6 v7 v8 v9 h1 h2 h3 h4 h5 h6 h7 h8 h9]
    simp [Contact.validate, hv1, hv2, hv3, hv4, hv5, hv6, hv7, hv8, hv9, hbad,
      except_bind_error]
  · intro hok fx hfax hfxne hfxbad
    rw [init_eq pfx kw v1 v2 v3 v4 v5 v6 v7 v8 v9 h1 h2 h3 h4 h5 h6 h7 h8 h9]
    simp [Contact.validate, hv1, hv2, hv3, hv4, hv5, hv6, hv7, hv8, hv9, hok, hfax,
      hfxne, hfxbad, except_bind_error]
  · intro hok hfxok
    refine ⟨Contact.mk pfx kw.organization_name kw.job_title v1 v2 v3 kw.address2 v4 v5
      kw.state_province_choice v6 v7 v8 kw.phone_ext kw.fax v9, ?_, rfl⟩
    rw [init_eq pfx kw v1 v2 v3 v4 v5 v6 v7 v8 v9 h1 h2 h3 h4 h5 h6 h7 h8 h9]
    rcases hf : kw.fax with _ | fx
    · simp [Contact.validate, hv1, hv2, hv3, hv4, hv5, hv6, hv7, hv8, hv9, hok, hf,
        except_bind_ok, except_pure]
    · by_cases hfe : fx = ""
      · simp [Contact.validate, hv1, hv2, hv3, hv4, hv5, hv6, hv7, hv8, hv9, hok, hf,
          hfe, except_bind_ok, except_pure]
      · have hfo := hfxok fx hf hfe
        simp [Contact.validate, hv1, hv2, hv3, hv4, hv5, hv6, hv7, hv8, hv9, hok, hf,
          hfe, hfo, except_bind_ok, except_pure]

/-- C4, witness: an invalid phone raises, an invalid fax raises, the valid
kwargs succeed, and a valid-prefix phone with trailing garbage passes the
matcher. -/
theorem claim_C4_witness :
    Contact.init "" { goodKwargs with phone := some "555-1234" }
      = .error (.contactValidationError "phone is not in valid format") ∧
    Contact.init "" { goodKwargs with fax := some "555-1234" }
      = .error (.contactValidationError "fax is not in valid format") ∧
    (∃ ct, Contact.init "" goodKwargs = .ok ct ∧ ct.phone = "+111.2223334") ∧
    Contact._validate_phone_number ("+123.4567890" ++ "junk") = true :=
  ⟨((claim_C4_amended "" { goodKwargs with phone := some "555-1234" } (by decide)).1
      "555-1234" (by decide)).1 (by decide),
   ((claim_C4_amended "" { goodKwargs with fax := some "555-1234" } (by decide)).1
      "+111.2223334" (by decide)).2.1 (by decide) "555-1234" (by decide) (by decide)
      (by decide),
   ((claim_C4_amended "" goodKwargs (by decide)).1 "+111.2223334" (by decide)).2.2
      (by decide) (by decide),
   (claim_C4_amended "" goodKwargs (by decide)).2 "+123.4567890" "junk" (by decide)⟩

/-! ## Claim C2 -/

/-- C2: for every contact, `as_dict` is exactly the prefixed CamelCase
dictionary: each non-`None`, non-underscore, non-callable attribute appears
under `prefix ++ CamelCase(snake_case name)` bound to its value, and
`None`-valued optional attributes are omitted; in particular with prefix
`Registrant` the `first_name` field is keyed `RegistrantFirstName`. -/
theorem claim_C2_as_dict (c : Contact) :
    Contact.as_dict c = Contact.camelizedDict c ∧
    (Contact._prefix c = "Registrant" →
      alookup (Contact.as_dict c) "RegistrantFirstName" = some c.first_name) := by
  refine ⟨Contact.as_dict_eq c, ?_⟩
  intro hp
  rw [Contact.as_dict_eq, Contact.camelizedDict, hp]
  rcases hA : c.address2 with _ | a2 <;> rcases hF : c.fax with _ | fx <;>
    simp [prefixedEntries, Contact.camelNameEntries, hA, hF, alookup_cons, alookup_nil]

/-- C2, witness: the sample registrant contact keyed with prefix
`Registrant` binds `RegistrantFirstName` to its first name. -/
theorem claim_C2_witness :
    alookup (Contact.as_dict { witRegistrant with _prefix := "Registrant" })
      "RegistrantFirstName" = some "John" :=
  (claim_C2_as_dict { witRegistrant with _prefix := "Registrant" }).2 rfl

/-! ## Claim C3 -/

/-- C3: `request` posts to `base_url`, and the posted parameter map is
`base_opts` overlaid with the per-call keyword arguments, the per-call
value winning on a shared key. -/
theorem claim_C3_request (c : NamecheapClient) (send : HttpPost → Response)
    (kwargs : List (String × Val)) (hnd : (kwargs.map Prod.fst).Nodup) :
    (NamecheapClient.request c send kwargs).1.url = c.base_url ∧
    ∀ k, alookup (NamecheapClient.request c send kwargs).1.data k
        = ((alookup kwargs k).orElse (fun _ => alookup c.base_opts k)) :=
  ⟨rfl, fun k => alookup_dictUpdate kwargs c.base_opts k hnd⟩

/-- C3, witness: a call that overrides `ApiUser` sends the override, keeps
the untouched `ApiKey` credential, and posts to the endpoint URL. -/
theorem claim_C3_witness :
    (NamecheapClient.request witClient sendOk
        [("Command", Val.s "namecheap.domains.getList"), ("ApiUser", Val.s "other")]).1.url
      = "https://api.namecheap.com/xml.response" ∧
    alookup (NamecheapClient.request witClient sendOk
        [("Command", Val.s "namecheap.domains.getList"), ("ApiUser", Val.s "other")]).1.data
      "ApiUser" = some (Val.s "other") ∧
    alookup (NamecheapClient.request witClient sendOk
        [("Command", Val.s "namecheap.domains.getList"), ("ApiUser", Val.s "other")]).1.data
      "ApiKey" = some (Val.s "apikey") := by
  obtain ⟨h1, h2⟩ := claim_C3_request witClient sendOk
    [("Command", Val.s "namecheap.domains.getList"), ("ApiUser", Val.s "other")] (by decide)
  refine ⟨h1, ?_, ?_⟩
  · rw [h2 "ApiUser"]
    decide
  · rw [h2 "ApiKey"]
    decide

/-! ## Claim C10 -/

/-- C10: `request` copies `base_opts` before overlaying the keyword
arguments, so the client state (in particular its credential dictionary) is
unchanged, and a later request behaves as if the first had never
happened. -/
theorem claim_C10_request_frame (c : NamecheapClient) (send : HttpPost → Response)
    (kw kw2 : List (String × Val)) :
    (NamecheapClient.request c send kw).2.2 = c ∧
    (NamecheapClient.request c send kw).2.2.base_opts = c.base_opts ∧
    NamecheapClient.request ((NamecheapClient.request c send kw).2.2) send kw2
      = NamecheapClient.request c send kw2 :=
  ⟨rfl, rfl, rfl⟩

/-! ## Claim C9 -/

/-- C9: `ssl_get_list` returns the raw response of `common_get_list`
unconditionally; the error check and result parsing written after its
`return` statement are unreachable, so no exception is raised even when the
response document carries API errors. -/
theorem claim_C9_ssl_get_list_dead_code (c : NamecheapClient) (send : HttpPost → Response)
    (list_type sort_by : String) (page_size page : Int) (search_term : Option String)
    (trip : HttpPost × Response × NamecheapClient)
    (h : NamecheapClient.common_get_list c send "namecheap.ssl.getList" list_type sort_by
      page_size page search_term = .ok trip) :
    NamecheapClient.ssl_get_list c send list_type sort_by page_size page search_term
      = .ok trip ∧
    ∀ errs, NamecheapClient.ssl_get_list c send list_type sort_by page_size page search_term
      ≠ .error (.apiError errs) := by
  have hmain : NamecheapClient.ssl_get_list c send list_type sort_by page_size page
      search_term = .ok trip := by
    simp [NamecheapClient.ssl_get_list, h, except_bind_ok, except_pure]
  exact ⟨hmain, fun errs hc => by rw [hmain] at hc; cases hc⟩

/-- C9, witness: with a transport that reports API errors, `ssl_get_list`
still returns the raw response. -/
theorem claim_C9_witness :
    witTripSsl.2.1.doc.errors ≠ [] ∧
    NamecheapClient.ssl_get_list witClient sendErr "all" "name" 10 1 none
      = .ok witTripSsl :=
  ⟨by decide,
   (claim_C9_ssl_get_list_dead_code witClient sendErr "all" "name" 10 1 none witTripSsl
      (by decide)).1⟩

/-! ## Claim C5 -/

/-- C5: both `domains_get_list` and `domains_dns_set_custom` raise an
exception carrying the parsed `Errors` field when it is non-empty, and
otherwise proceed: `domains_dns_set_custom` returns its response,
`domains_get_list` goes on to build the `Domain` list. -/
theorem claim_C5_error_check (c : NamecheapClient) (send : HttpPost → Response)
    (sld tld : String) (ns : List String)
    (list_type sort_by : String) (page_size page : Int) (search_term : Option String)
    (trip : HttpPost × Response × NamecheapClient)
    (hcgl : NamecheapClient.common_get_list c send "namecheap.domains.getList" list_type
      sort_by page_size page search_term = .ok trip) :
    ((NamecheapClient.request c send (dnsSetCustomOpts sld tld ns)).2.1.doc.errors ≠ [] →
      NamecheapClient.domains_dns_set_custom c send sld tld ns
        = .error (.apiError
            (NamecheapClient.request c send (dnsSetCustomOpts sld tld ns)).2.1.doc.errors)) ∧
    ((NamecheapClient.request c send (dnsSetCustomOpts sld tld ns)).2.1.doc.errors = [] →
      NamecheapClient.domains_dns_set_custom c send sld tld ns
        = .ok (NamecheapClient.request c send (dnsSetCustomOpts sld tld ns))) ∧
    (trip.2.1.doc.errors ≠ [] →
      NamecheapClient.domains_get_list c send list_type sort_by page_size page search_term
        = .error (.apiError trip.2.1.doc.errors)) ∧
    (trip.2.1.doc.errors = [] →
      NamecheapClient.domains_get_list c send list_type sort_by page_size page search_term
        = trip.2.1.doc.domainGetListResult.mapM
            (fun domain => Domain.init c (domain.map (fun kv => (dropFirst kv.1, kv.2))))) := by
  refine ⟨?_, ?_, ?_, ?_⟩
  · intro herr
    simp [NamecheapClient.domains_dns_set_custom, herr]
  · intro hok
    simp [NamecheapClient.domains_dns_set_custom, hok]
  · intro herr
    simp [NamecheapClient.domains_get_list, hcgl, except_bind_ok, herr]
  · intro hok
    simp [NamecheapClient.domains_get_list, hcgl, except_bind_ok, hok]

/-- C5, witness: the sample transports drive each of the four branches. -/
theorem claim_C5_witness :
    NamecheapClient.domains_dns_set_custom witClient sendErr "example" "com"
      ["ns1.example.com", "ns2.example.com"]
      = .error (.apiError ["2030280 - TLD is not supported"]) ∧
    NamecheapClient.domains_dns_set_custom witClient sendOk "example" "com"
      ["ns1.example.com"]
      = .ok (NamecheapClient.request witClient sendOk
          (dnsSetCustomOpts "example" "com" ["ns1.example.com"])) ∧
    NamecheapClient.domains_get_list witClient sendErr "all" "name" 10 1 none
      = .error (.apiError ["2030280 - TLD is not supported"]) ∧
    NamecheapClient.domains_get_list witClient sendOk "all" "name" 10 1 none
      = okDoc.domainGetListResult.mapM
          (fun domain => Domain.init witClient
            (domain.map (fun kv => (dropFirst kv.1, kv.2)))) := by
  refine ⟨?_, ?_, ?_, ?_⟩
  · exact (claim_C5_error_check witClient sendErr "example" "com"
      ["ns1.example.com", "ns2.example.com"] "all" "name" 10 1 none witTripDglErr
      (by decide)).1 (by decide)
  · exact (claim_C5_error_check witClient sendOk "example" "com" ["ns1.example.com"]
      "all" "name" 10 1 none witTripDglOk (by decide)).2.1 (by decide)
  · exact (claim_C5_error_check witClient sendErr "example" "com" ["ns1.example.com"]
      "all" "name" 10 1 none witTripDglErr (by decide)).2.2.1 (by decide)
  · exact (claim_C5_error_check witClient sendOk "example" "com" ["ns1.example.com"]
      "all" "name" 10 1 none witTripDglOk (by decide)).2.2.2 (by decide)

/-! ## Claim C6 -/

/-- C6: on an error-free response, `domains_get_list` returns one `Domain`
per element of `DomainGetListResult.Domain`, each built from that element's
key-value pairs with the first character stripped from every key; and
`Domain.__init__` maps the stripped keys to the record fields, parsing `ID`
as an integer, `Created`/`Expires` as `MM/DD/YYYY` dates,
`IsExpired`/`IsLocked` as comparisons with the string `'true'`, and storing
`Name`, `User`, `WhoisGuard` and `AutoRenew` raw. -/
theorem claim_C6_domains_get_list (c : NamecheapClient) (send : HttpPost → Response)
    (list_type sort_by : String) (page_size page : Int) (search_term : Option String)
    (trip : HttpPost × Response × NamecheapClient)
    (hcgl : NamecheapClient.common_get_list c send "namecheap.domains.getList" list_type
      sort_by page_size page search_term = .ok trip)
    (herr : trip.2.1.doc.errors = []) :
    (NamecheapClient.domains_get_list c send list_type sort_by page_size page search_term
      = trip.2.1.doc.domainGetListResult.mapM
          (fun domain => Domain.init c (domain.map (fun kv => (dropFirst kv.1, kv.2))))) ∧
    (∀ (client : NamecheapClient) (kwargs : List (String × String)) (cs es ids : String)
        (dC dE : PyDate) (n : Int),
      alookup kwargs "Created" = some cs → strptimeMDY cs = some dC →
      alookup kwargs "Expires" = some es → strptimeMDY es = some dE →
      alookup kwargs "ID" = some ids → pyInt ids = some n →
      Domain.init client kwargs = .ok (Domain.mk client kwargs
        (alookup kwargs "AutoRenew") dC dE n
        (alookup kwargs "IsExpired" == some "true")
        (alookup kwargs "IsLocked" == some "true")
        (alookup kwargs "Name") (alookup kwargs "User")
        (alookup kwargs "WhoisGuard"))) := by
  constructor
  · simp [NamecheapClient.domains_get_list, hcgl, except_bind_ok, herr]
  · intro client kwargs cs es ids dC dE n hC hsC hEx hsE hI hpI
    simp [Domain.init, hC, hsC, hEx, hsE, hI, hpI,
      except_bind_ok, except_bind_error, except_pure]

/-- C6, witness: the sample response yields exactly one `Domain`, with the
attribute keys stripped of their leading `@` and every field parsed as
described. -/
theorem claim_C6_witness :
    (NamecheapClient.domains_get_list witClient sendOk "all" "name" 10 1 none
      = witTripDglOk.2.1.doc.domainGetListResult.mapM
          (fun domain => Domain.init witClient
            (domain.map (fun kv => (dropFirst kv.1, kv.2))))) ∧
    Domain.init witClient (domEntry.map (fun kv => (dropFirst kv.1, kv.2)))
      = .ok (Domain.mk witClient
          [("ID", "57579"), ("Name", "example.com"), ("User", "owner"),
           ("Created", "11/04/2011"), ("Expires", "11/04/2012"),
           ("IsExpired", "false"), ("IsLocked", "true"), ("AutoRenew", "false"),
           ("WhoisGuard", "ENABLED")]
          (some "false") (PyDate.mk 2011 11 4) (PyDate.mk 2012 11 4) 57579
          false true (some "example.com") (some "owner") (some "ENABLED")) := by
  constructor
  · exact (claim_C6_domains_get_list witClient sendOk "all" "name" 10 1 none witTripDglOk
      (by decide) (by decide)).1
  · exact (claim_C6_domains_get_list witClient sendOk "all" "name" 10 1 none witTripDglOk
      (by decide) (by decide)).2 witClient
      (domEntry.map (fun kv => (dropFirst kv.1, kv.2)))
      "11/04/2011" "11/04/2012" "57579" (PyDate.mk 2011 11 4) (PyDate.mk 2012 11 4) 57579
      (by decide) (by decide) (by decide) (by decide) (by decide) (by decide)

/-! ## Claim C8 -/

/-- C8: with a valid `list_type` and `sort_by`, `common_get_list` passes
`page` and `page_size` through unchanged as the `Page` and `PageSize`
parameters of the issued request, includes `SearchTerm` exactly when
`search_term` is provided and non-empty, and `ssl_get_list` (like
`domains_get_list`) delegates to it with these arguments; the Python
defaults are `list_type='all'`, `sort_by='name'`, `page_size=10`, `page=1`,
`search_term=None`. -/
theorem claim_C8_common_get_list (c : NamecheapClient) (send : HttpPost → Response)
    (command lt sb ltv sbv : String) (ps pg : Int) (st : Option String)
    (hlt : alookup LIST_TYPES lt = some ltv) (hsb : alookup SORT_TYPES sb = some sbv) :
    NamecheapClient.common_get_list c send command lt sb ps pg st
      = .ok (NamecheapClient.request c send (commonGetListOpts command ltv sbv ps pg st)) ∧
    alookup (commonGetListOpts command ltv sbv ps pg st) "Page" = some (Val.n pg) ∧
    alookup (commonGetListOpts command ltv sbv ps pg st) "PageSize" = some (Val.n ps) ∧
    (∀ s, st = some s → s ≠ "" →
      alookup (commonGetListOpts command ltv sbv ps pg st) "SearchTerm" = some (Val.s s)) ∧
    ((st = none ∨ st = some "") →
      alookup (commonGetListOpts command ltv sbv ps pg st) "SearchTerm" = none) ∧
    NamecheapClient.ssl_get_list c send lt sb ps pg st
      = .ok (NamecheapClient.request c send
          (commonGetListOpts "namecheap.ssl.getList" ltv sbv ps pg st)) := by
  refine ⟨?_, ?_, ?_, ?_, ?_, ?_⟩
  · simp [NamecheapClient.common_get_list, hlt, hsb, except_bind_ok, except_pure]
  · rcases st with _ | t
    · simp [commonGetListOpts, alookup_cons, alookup_nil]
    · by_cases ht : t = "" <;>
        simp [commonGetListOpts, dictSet, ht, alookup_cons, alookup_nil]
  · rcases st with _ | t
    · simp [commonGetListOpts, alookup_cons, alookup_nil]
    · by_cases ht : t = "" <;>
        simp [commonGetListOpts, dictSet, ht, alookup_cons, alookup_nil]
  · intro s hst hsne
    subst hst
    simp [commonGetListOpts, hsne, dictSet, alookup_cons, alookup_nil]
  · intro hd
    rcases hd with h | h <;> subst h <;>
      simp [commonGetListOpts, alookup_cons, alookup_nil]
  · simp [NamecheapClient.ssl_get_list, NamecheapClient.common_get_list, hlt, hsb,
      except_bind_ok, except_pure]

/-- C8, witness: a fully explicit call passes page 3 and page size 25
through and carries the search term; the default-argument call carries page
1, page size 10 and no search term. -/
theorem claim_C8_witness :
    NamecheapClient.common_get_list witClient sendOk "namecheap.domains.getList"
      "expired" "-create_date" 25 3 (some "foo")
      = .ok (NamecheapClient.request witClient sendOk
          (commonGetListOpts "namecheap.domains.getList" "EXPIRED" "CREATEDATE_DESC"
            25 3 (some "foo"))) ∧
    alookup (commonGetListOpts "namecheap.domains.getList" "EXPIRED" "CREATEDATE_DESC"
      25 3 (some "foo")) "Page" = some (Val.n 3) ∧
    alookup (commonGetListOpts "namecheap.domains.getList" "EXPIRED" "CREATEDATE_DESC"
      25 3 (some "foo")) "PageSize" = some (Val.n 25) ∧
    alookup (commonGetListOpts "namecheap.domains.getList" "EXPIRED" "CREATEDATE_DESC"
      25 3 (some "foo")) "SearchTerm" = some (Val.s "foo") ∧
    alookup (commonGetListOpts "namecheap.domains.getList" "ALL" "NAME" 10 1 none)
      "SearchTerm" = none := by
  obtain ⟨h1, h2, h3, h4, _, _⟩ := claim_C8_common_get_list witClient sendOk
    "namecheap.domains.getList" "expired" "-create_date" "EXPIRED" "CREATEDATE_DESC"
    25 3 (some "foo") (by decide) (by decide)
  obtain ⟨_, _, _, _, h5, _⟩ := claim_C8_common_get_list witClient sendOk
    "namecheap.domains.getList" "all" "name" "ALL" "NAME"
    10 1 none (by decide) (by decide)
  exact ⟨h1, h2, h3, h4 "foo" rfl (by decide), h5 (Or.inl rfl)⟩

/-! ## Claim C7 -/

set_option maxRecDepth 4000 in
/-- C7, counterexample: the claim quantifies over every `domains_create`
call, but a supplied admin contact whose `_prefix` is `'Registrant'` is
merged after the registrant's dictionary and overwrites it, so the
assembled map does not carry the registrant's `first_name` (`John`) under
`RegistrantFirstName` — it carries the admin's (`Eve`). -/
theorem claim_C7_counterexample :
    alookup (NamecheapClient.domains_create witClient sendOk "example.com" none
        witRegistrant (some evilAdmin) none none).1.1.data "RegistrantFirstName"
      = some (Val.s "Eve") ∧
    alookup (NamecheapClient.domains_create witClient sendOk "example.com" none
        witRegistrant (some evilAdmin) none none).1.1.data "RegistrantFirstName"
      ≠ some (Val.s "John") := by decide

/-- C7, amended: provided no supplied contact's prefix collides with
`'Registrant'` or with the prefix of a later-merged defaulted copy, the
assembled map carries `Command`, `DomainName` and `Years` (defaulting to
1), the registrant's fields under `'Registrant'`, and — for each of admin,
tech and aux_billing that is not supplied — the registrant's values under
`'Admin'`, `'Tech'` or `'AuxBilling'` respectively; the caller's registrant
object is altered only by setting its `_prefix` to `'Registrant'`. -/
theorem claim_C7_domains_create (c : NamecheapClient) (send : HttpPost → Response)
    (domain_name : String) (years : Option Int) (registrant : Contact)
    (admin tech aux_billing : Option Contact)
    (reg' adm' tech' aux' : Contact) (opts : List (String × Val))
    (hreg : reg' = { registrant with _prefix := "Registrant" })
    (hadm : adm' = (match admin with
      | some a => a
      | none => { reg' with _prefix := "Admin" }))
    (htec : tech' = (match tech with
      | some t => t
      | none => { reg' with _prefix := "Tech" }))
    (haux : aux' = (match aux_billing with
      | some x => x
      | none => { reg' with _prefix := "AuxBilling" }))
    (hopts : opts = domainsCreateOpts domain_name (years.getD 1) reg' adm' tech' aux')
    (hA : ∀ a, admin = some a → Contact._prefix a ≠ "Registrant")
    (hT : ∀ t, tech = some t → Contact._prefix t ≠ "Registrant" ∧
      (admin = none → Contact._prefix t ≠ "Admin"))
    (hX : ∀ x, aux_billing = some x → Contact._prefix x ≠ "Registrant" ∧
      (admin = none → Contact._prefix x ≠ "Admin") ∧
      (tech = none → Contact._prefix x ≠ "Tech")) :
    NamecheapClient.domains_create c send domain_name years registrant admin tech
        aux_billing
      = (NamecheapClient.request c send opts, reg') ∧
    alookup opts "Command" = some (Val.s "namecheap.domains.create") ∧
    alookup opts "DomainName" = some (Val.s domain_name) ∧
    alookup opts "Years" = some (Val.n (years.getD 1)) ∧
    (∀ k v, (k, v) ∈ Contact.as_dict reg' → alookup opts k = some (Val.s v)) ∧
    (admin = none →
      ∀ k v, (k, v) ∈ Contact.as_dict { reg' with _prefix := "Admin" } →
        alookup opts k = some (Val.s v)) ∧
    (tech = none →
      ∀ k v, (k, v) ∈ Contact.as_dict { reg' with _prefix := "Tech" } →
        alookup opts k = some (Val.s v)) ∧
    (aux_billing = none →
      ∀ k v, (k, v) ∈ Contact.as_dict { reg' with _prefix := "AuxBilling" } →
        alookup opts k = some (Val.s v)) := by
  subst hreg
  subst hopts
  refine ⟨?_, ?_, ?_, ?_, ?_, ?_, ?_, ?_⟩
  · rw [hadm, htec, haux]
    rfl
  · simp only [domainsCreateOpts]
    rw [alookup_update_lit _ _ _ camelNames_not_suffix_command,
      alookup_update_lit _ _ _ camelNames_not_suffix_command,
      alookup_update_lit _ _ _ camelNames_not_suffix_command,
      alookup_update_lit _ _ _ camelNames_not_suffix_command]
    simp [alookup_cons]
  · simp only [domainsCreateOpts]
    rw [alookup_update_lit _ _ _ camelNames_not_suffix_domain_name,
      alookup_update_lit _ _ _ camelNames_not_suffix_domain_name,
      alookup_update_lit _ _ _ camelNames_not_suffix_domain_name,
      alookup_update_lit _ _ _ camelNames_not_suffix_domain_name]
    simp [alookup_cons]
  · simp only [domainsCreateOpts]
    rw [alookup_update_lit _ _ _ camelNames_not_suffix_years,
      alookup_update_lit _ _ _ camelNames_not_suffix_years,
      alookup_update_lit _ _ _ camelNames_not_suffix_years,
      alookup_update_lit _ _ _ camelNames_not_suffix_years]
    simp [alookup_cons]
  · intro k v hmem
    obtain ⟨n, hn, hk⟩ := as_dict_mem_key _ k v hmem
    have hk' : k = "Registrant" ++ n := hk
    subst hk'
    have hne_aux : "Registrant" ≠ Contact._prefix aux' := by
      rcases hc : aux_billing with _ | x
      · have h2 : aux' = { ({ registrant with _prefix := "Registrant" }) with
            _prefix := "AuxBilling" } := by rw [haux, hc]
        rw [h2]
        exact (by decide : ("Registrant" : String) ≠ "AuxBilling")
      · have h2 : aux' = x := by rw [haux, hc]
        rw [h2]
        exact Ne.symm ((hX x hc).1)
    have hne_tec : "Registrant" ≠ Contact._prefix tech' := by
      rcases hc : tech with _ | t
      · have h2 : tech' = { ({ registrant with _prefix := "Registrant" }) with
            _prefix := "Tech" } := by rw [htec, hc]
        rw [h2]
        exact (by decide : ("Registrant" : String) ≠ "Tech")
      · have h2 : tech' = t := by rw [htec, hc]
        rw [h2]
        exact Ne.symm ((hT t hc).1)
    have hne_adm : "Registrant" ≠ Contact._prefix adm' := by
      rcases hc : admin with _ | a
      · have h2 : adm' = { ({ registrant with _prefix := "Registrant" }) with
            _prefix := "Admin" } := by rw [hadm, hc]
        rw [h2]
        exact (by decide : ("Registrant" : String) ≠ "Admin")
      · have h2 : adm' = a := by rw [hadm, hc]
        rw [h2]
        exact Ne.symm (hA a hc)
    simp only [domainsCreateOpts]
    rw [alookup_update_skip _ aux' "Registrant" n hn hne_aux,
      alookup_update_skip _ tech' "Registrant" n hn hne_tec,
      alookup_update_skip _ adm' "Registrant" n hn hne_adm,
      alookup_update_hit _ _ _ _ hmem]
  · intro hadmn k v hmem
    have hadm2 : adm' = { ({ registrant with _prefix := "Registrant" }) with
        _prefix := "Admin" } := by rw [hadm, hadmn]
    subst hadm2
    obtain ⟨n, hn, hk⟩ := as_dict_mem_key _ k v hmem
    have hk' : k = "Admin" ++ n := hk
    subst hk'
    have hne_aux : "Admin" ≠ Contact._prefix aux' := by
      rcases hc : aux_billing with _ | x
      · have h2 : aux' = { ({ registrant with _prefix := "Registrant" }) with
            _prefix := "AuxBilling" } := by rw [haux, hc]
        rw [h2]
        exact (by decide : ("Admin" : String) ≠ "AuxBilling")
      · have h2 : aux' = x := by rw [haux, hc]
        rw [h2]
        exact Ne.symm ((hX x hc).2.1 hadmn)
    have hne_tec : "Admin" ≠ Contact._prefix tech' := by
      rcases hc : tech with _ | t
      · have h2 : tech' = { ({ registrant with _prefix := "Registrant" }) with
            _prefix := "Tech" } := by rw [htec, hc]
        rw [h2]
        exact (by decide : ("Admin" : String) ≠ "Tech")
      · have h2 : tech' = t := by rw [htec, hc]
        rw [h2]
        exact Ne.symm ((hT t hc).2 hadmn)
    simp only [domainsCreateOpts]
    rw [alookup_update_skip _ aux' "Admin" n hn hne_aux,
      alookup_update_skip _ tech' "Admin" n hn hne_tec,
      alookup_update_hit _ _ _ _ hmem]
  · intro htecn k v hmem
    have htec2 : tech' = { ({ registrant with _prefix := "Registrant" }) with
        _prefix := "Tech" } := by rw [htec, htecn]
    subst htec2
    obtain ⟨n, hn, hk⟩ := as_dict_mem_key _ k v hmem
    have hk' : k = "Tech" ++ n := hk
    subst hk'
    have hne_aux : "Tech" ≠ Contact._prefix aux' := by
      rcases hc : aux_billing with _ | x
      · have h2 : aux' = { ({ registrant with _prefix := "Registrant" }) with
            _prefix := "AuxBilling" } := by rw [haux, hc]
        rw [h2]
        exact (by decide : ("Tech" : String) ≠ "AuxBilling")
      · have h2 : aux' = x := by rw [haux, hc]
        rw [h2]
        exact Ne.symm ((hX x hc).2.2 htecn)
    simp only [domainsCreateOpts]
    rw [alookup_update_skip _ aux' "Tech" n hn hne_aux,
      alookup_update_hit _ _ _ _ hmem]
  · intro hauxn k v hmem
    have haux2 : aux' = { ({ registrant with _prefix := "Registrant" }) with
        _prefix := "AuxBilling" } := by rw [haux, hauxn]
    subst haux2
    simp only [domainsCreateOpts]
    rw [alookup_update_hit _ _ _ _ hmem]

/-- C7, witness: an all-defaults call returns the registrant re-prefixed
`Registrant` and its parameter map carries the command, the domain name,
one year and the registrant's first name under all four prefixes. -/
theorem claim_C7_witness :
    NamecheapClient.domains_create witClient sendOk "example.com" none witRegistrant
        none none none
      = (NamecheapClient.request witClient sendOk witCreateOpts, witReg) ∧
    alookup witCreateOpts "Command" = some (Val.s "namecheap.domains.create") ∧
    alookup witCreateOpts "DomainName" = some (Val.s "example.com") ∧
    alookup witCreateOpts "Years" = some (Val.n 1) ∧
    alookup witCreateOpts "RegistrantFirstName" = some (Val.s "John") ∧
    alookup witCreateOpts "AdminFirstName" = some (Val.s "John") ∧
    alookup witCreateOpts "TechFirstName" = some (Val.s "John") ∧
    alookup witCreateOpts "AuxBillingFirstName" = some (Val.s "John") := by
  obtain ⟨h1, h2, h3, h4, h5, h6, h7, h8⟩ := claim_C7_domains_create witClient sendOk
    "example.com" none witRegistrant none none none witReg witAdmCopy witTecCopy
    witAuxCopy witCreateOpts rfl rfl rfl rfl rfl
    (fun a h => Option.noConfusion h) (fun t h => Option.noConfusion h)
    (fun x h => Option.noConfusion h)
  exact ⟨h1, h2, h3, h4,
    h5 "RegistrantFirstName" "John" (by decide),
    h6 rfl "AdminFirstName" "John" (by decide),
    h7 rfl "TechFirstName" "John" (by decide),
    h8 rfl "AuxBillingFirstName" "John" (by decide)⟩

end Frugalmoniker
